import Mathlib

/-!
Verification of the PLATO ICU software compression pipeline (icu_cmp.c).

The definitions below are a shallow embedding of the C source:
machine integers become `Nat` with explicit `% 2^w` where wrap-around
matters, buffers become lists, pointers become `Nat` addresses with `0`
standing for NULL, and fallible functions return an `Int` status code
next to the updated state.  We model the big-endian build of the code,
in which every `cpu_to_be*` conversion compiles to the identity.
-/

set_option maxRecDepth 10000
set_option linter.unusedVariables false

/-- Two to the sixteenth, the modulus of `uint16_t` arithmetic. -/
def M16 : Nat := 65536

/-- Two to the thirty-second, the modulus of `uint32_t` arithmetic. -/
def M32 : Nat := 4294967296

/-- C unsigned subtraction `a - b` at width `2^w` (wrap-around is intended
in the source, see the "possible underflow is intended" comments). -/
def wsub (m a b : Nat) : Nat := (a % m + (m - b % m)) % m

/-- Modelled from the spec: `MAX_MODEL_VALUE` (= 16), from cmp_support.h
which is not part of the given sources. -/
def MAX_MODEL_VALUE : Nat := 16

/-- Modelled from the spec: `MIN_ICU_GOLOMB_PAR` (the divisor lower bound). -/
def MIN_ICU_GOLOMB_PAR : Nat := 1

/-- Modelled from the spec: `MAX_ICU_GOLOMB_PAR`, an implementation-defined
ceiling fitting in 16 bits. -/
def MAX_ICU_GOLOMB_PAR : Nat := 65535

/-- Modelled from the spec: `MIN_ICU_SPILL` (smallest legal spillover). -/
def MIN_ICU_SPILL : Nat := 2

/-- Modelled from the spec: `MAX_ICU_ROUND` (= 3). -/
def MAX_ICU_ROUND : Nat := 3

/-- Modelled from the spec: `GOLOMB_PAR_EXPOSURE_FLAGS`, the
implementation-defined small constant Golomb parameter used for the
exposure-flags field of S_FX samples. -/
def GOLOMB_PAR_EXPOSURE_FLAGS : Nat := 1

/-- Modelled from the spec: error bit positions of `info.cmp_err`
(cmp_support.h is not part of the given sources; only distinctness of
the positions matters). -/
def CMP_MODE_ERR_BIT : Nat := 0

/-- Modelled from the spec: position of the model-value error bit. -/
def MODEL_VALUE_ERR_BIT : Nat := 1

/-- Modelled from the spec: position of the compression-parameter error bit. -/
def CMP_PAR_ERR_BIT : Nat := 2

/-- Modelled from the spec: position of the small-buffer error bit. -/
def SMALL_BUFFER_ERR_BIT : Nat := 5

/-- Modelled from the spec: `round_fwd(v, k) = v >> k` (lossy rounding). -/
def round_fwd (v k : Nat) : Nat := v >>> k

/-- Modelled from the spec: `round_inv(v, k) = v << k`. -/
def round_inv (v k : Nat) : Nat := v <<< k

/-- Modelled from the spec: `cal_up_model(a, b, w)`, a weighted blend of
observation `a` and prior model `b` with weight `w` in
`[0, MAX_MODEL_VALUE]`, in `uint32_t` arithmetic. -/
def cal_up_model (a b w : Nat) : Nat :=
  ((a % M32) * w + (b % M32) * (MAX_MODEL_VALUE - w)) / MAX_MODEL_VALUE % M32

/-- Fuel-driven floor base-2 logarithm (structural recursion, so that the
kernel can evaluate it on concrete inputs). -/
def ilog2_fuel : Nat → Nat → Nat
  | 0, _ => 0
  | fuel + 1, x => if 2 ≤ x then ilog2_fuel fuel (x / 2) + 1 else 0

/-- Modelled from the spec: `ilog_2`, the floor base-2 logarithm computed
outside the encoders for performance. -/
def ilog_2 (x : Nat) : Nat := ilog2_fuel x x

/-- Modelled from the spec: `is_a_pow_of_2` (the usual `x & (x-1)` test). -/
def is_a_pow_of_2 (x : Nat) : Bool := x ≠ 0 && x.land (x - 1) = 0

/-- The closed set of compression modes (section 6 of the manual; the
numeric codes live in cmp_support.h, which is not under src/). -/
inductive CmpMode where
  | MODE_RAW
  | MODE_RAW_S_FX
  | MODE_MODEL_ZERO
  | MODE_MODEL_MULTI
  | MODE_DIFF_ZERO
  | MODE_DIFF_MULTI
  | MODE_MODEL_ZERO_S_FX
  | MODE_MODEL_MULTI_S_FX
  | MODE_DIFF_ZERO_S_FX
  | MODE_DIFF_MULTI_S_FX
  | MODE_MODEL_ZERO_S_FX_EFX
  | MODE_MODEL_MULTI_S_FX_EFX
  | MODE_DIFF_ZERO_S_FX_EFX
  | MODE_DIFF_MULTI_S_FX_EFX
  | MODE_MODEL_ZERO_S_FX_NCOB
  | MODE_MODEL_MULTI_S_FX_NCOB
  | MODE_DIFF_ZERO_S_FX_NCOB
  | MODE_DIFF_MULTI_S_FX_NCOB
  | MODE_MODEL_ZERO_S_FX_EFX_NCOB_ECOB
  | MODE_MODEL_MULTI_S_FX_EFX_NCOB_ECOB
  | MODE_DIFF_ZERO_S_FX_EFX_NCOB_ECOB
  | MODE_DIFF_MULTI_S_FX_EFX_NCOB_ECOB
  | MODE_MODEL_ZERO_32
  | MODE_MODEL_MULTI_32
  | MODE_DIFF_ZERO_32
  | MODE_DIFF_MULTI_32
  | MODE_MODEL_ZERO_F_FX
  | MODE_MODEL_MULTI_F_FX
  | MODE_DIFF_ZERO_F_FX
  | MODE_DIFF_MULTI_F_FX
  deriving DecidableEq, Repr

open CmpMode

/-- Modelled from the spec: `raw_mode_is_used` (prefix RAW selects raw). -/
def raw_mode_is_used : CmpMode → Bool
  | MODE_RAW | MODE_RAW_S_FX => true
  | _ => false

/-- Modelled from the spec: `model_mode_is_used` (prefix MODEL selects
model pre-processing). -/
def model_mode_is_used : CmpMode → Bool
  | MODE_MODEL_ZERO | MODE_MODEL_MULTI
  | MODE_MODEL_ZERO_S_FX | MODE_MODEL_MULTI_S_FX
  | MODE_MODEL_ZERO_S_FX_EFX | MODE_MODEL_MULTI_S_FX_EFX
  | MODE_MODEL_ZERO_S_FX_NCOB | MODE_MODEL_MULTI_S_FX_NCOB
  | MODE_MODEL_ZERO_S_FX_EFX_NCOB_ECOB | MODE_MODEL_MULTI_S_FX_EFX_NCOB_ECOB
  | MODE_MODEL_ZERO_32 | MODE_MODEL_MULTI_32
  | MODE_MODEL_ZERO_F_FX | MODE_MODEL_MULTI_F_FX => true
  | _ => false

/-- Modelled from the spec: `diff_mode_is_used` (prefix DIFF selects
differential pre-processing). -/
def diff_mode_is_used : CmpMode → Bool
  | MODE_DIFF_ZERO | MODE_DIFF_MULTI
  | MODE_DIFF_ZERO_S_FX | MODE_DIFF_MULTI_S_FX
  | MODE_DIFF_ZERO_S_FX_EFX | MODE_DIFF_MULTI_S_FX_EFX
  | MODE_DIFF_ZERO_S_FX_NCOB | MODE_DIFF_MULTI_S_FX_NCOB
  | MODE_DIFF_ZERO_S_FX_EFX_NCOB_ECOB | MODE_DIFF_MULTI_S_FX_EFX_NCOB_ECOB
  | MODE_DIFF_ZERO_32 | MODE_DIFF_MULTI_32
  | MODE_DIFF_ZERO_F_FX | MODE_DIFF_MULTI_F_FX => true
  | _ => false

/-- Modelled from the spec: `zero_escape_mech_is_used` (suffix ZERO). -/
def zero_escape_mech_is_used : CmpMode → Bool
  | MODE_MODEL_ZERO | MODE_DIFF_ZERO
  | MODE_MODEL_ZERO_S_FX | MODE_DIFF_ZERO_S_FX
  | MODE_MODEL_ZERO_S_FX_EFX | MODE_DIFF_ZERO_S_FX_EFX
  | MODE_MODEL_ZERO_S_FX_NCOB | MODE_DIFF_ZERO_S_FX_NCOB
  | MODE_MODEL_ZERO_S_FX_EFX_NCOB_ECOB | MODE_DIFF_ZERO_S_FX_EFX_NCOB_ECOB
  | MODE_MODEL_ZERO_32 | MODE_DIFF_ZERO_32
  | MODE_MODEL_ZERO_F_FX | MODE_DIFF_ZERO_F_FX => true
  | _ => false

/-- Modelled from the spec: `multi_escape_mech_is_used` (suffix MULTI). -/
def multi_escape_mech_is_used : CmpMode → Bool
  | MODE_MODEL_MULTI | MODE_DIFF_MULTI
  | MODE_MODEL_MULTI_S_FX | MODE_DIFF_MULTI_S_FX
  | MODE_MODEL_MULTI_S_FX_EFX | MODE_DIFF_MULTI_S_FX_EFX
  | MODE_MODEL_MULTI_S_FX_NCOB | MODE_DIFF_MULTI_S_FX_NCOB
  | MODE_MODEL_MULTI_S_FX_EFX_NCOB_ECOB | MODE_DIFF_MULTI_S_FX_EFX_NCOB_ECOB
  | MODE_MODEL_MULTI_32 | MODE_DIFF_MULTI_32
  | MODE_MODEL_MULTI_F_FX | MODE_DIFF_MULTI_F_FX => true
  | _ => false

/-- Modelled from the spec: `size_of_a_sample`, the byte size of one
sample of the shape selected by the mode (section 3 field widths:
U16 = 2, U32/F_FX = 4, S_FX = 1+4, S_FX_EFX = 1+8, S_FX_NCOB = 1+12,
S_FX_EFX_NCOB_ECOB = 1+24). -/
def size_of_a_sample : CmpMode → Nat
  | MODE_RAW | MODE_MODEL_ZERO | MODE_MODEL_MULTI
  | MODE_DIFF_ZERO | MODE_DIFF_MULTI => 2
  | MODE_MODEL_ZERO_32 | MODE_MODEL_MULTI_32
  | MODE_DIFF_ZERO_32 | MODE_DIFF_MULTI_32
  | MODE_MODEL_ZERO_F_FX | MODE_MODEL_MULTI_F_FX
  | MODE_DIFF_ZERO_F_FX | MODE_DIFF_MULTI_F_FX => 4
  | MODE_RAW_S_FX | MODE_MODEL_ZERO_S_FX | MODE_MODEL_MULTI_S_FX
  | MODE_DIFF_ZERO_S_FX | MODE_DIFF_MULTI_S_FX => 5
  | MODE_MODEL_ZERO_S_FX_EFX | MODE_MODEL_MULTI_S_FX_EFX
  | MODE_DIFF_ZERO_S_FX_EFX | MODE_DIFF_MULTI_S_FX_EFX => 9
  | MODE_MODEL_ZERO_S_FX_NCOB | MODE_MODEL_MULTI_S_FX_NCOB
  | MODE_DIFF_ZERO_S_FX_NCOB | MODE_DIFF_MULTI_S_FX_NCOB => 13
  | MODE_MODEL_ZERO_S_FX_EFX_NCOB_ECOB | MODE_MODEL_MULTI_S_FX_EFX_NCOB_ECOB
  | MODE_DIFF_ZERO_S_FX_EFX_NCOB_ECOB | MODE_DIFF_MULTI_S_FX_EFX_NCOB_ECOB => 25

/-- Modelled from the spec: `get_max_spill(m, mode)`, the largest legal
spillover threshold for a divisor, chosen so that every codeword in the
escape region stays inside the 32-bit codeword budget (the exact value is
implementation-defined; cmp_support.c is not under src/). -/
def get_max_spill (golomb_par : Nat) (mode : CmpMode) : Nat :=
  if golomb_par = 0 then 0
  else (32 - (ilog_2 golomb_par + 1)) * golomb_par

/-- The signed/unsigned reinterpretation of a w-bit pattern `x < 2^w`
(the C casts `(int8_t)`, `(int16_t)`, `(int32_t)`). -/
def toSigned (m x : Nat) : Int :=
  if x < m / 2 then (x : Int) else (x : Int) - (m : Int)

/-- Generic body of `map_to_pos_alg_8/16/32` from icu_cmp.c: fold a signed
residual into the unsigned range, `u = (s < 0) ? (-s)*2 - 1 : s*2`, with
the intended wrap-around at width `m = 2^w`. -/
def map_to_pos_alg (m x : Nat) : Nat :=
  if toSigned m x < 0 then ((-(toSigned m x)) * 2 - 1).toNat % m
  else ((toSigned m x) * 2).toNat % m

/-- The 8-bit sign-to-unsigned mapping `map_to_pos_alg_8` of icu_cmp.c. -/
def map_to_pos_alg_8 (x : Nat) : Nat := map_to_pos_alg 256 x

/-- The 16-bit sign-to-unsigned mapping `map_to_pos_alg_16` of icu_cmp.c. -/
def map_to_pos_alg_16 (x : Nat) : Nat := map_to_pos_alg M16 x

/-- The 32-bit sign-to-unsigned mapping `map_to_pos_alg_32` of icu_cmp.c. -/
def map_to_pos_alg_32 (x : Nat) : Nat := map_to_pos_alg M32 x

/-- Modelled from the spec: `map_to_pos_inv`, the decompressor's inverse
of the sign-to-unsigned mapping (decmp.c is not under src/; the spec
states `map_to_pos_inv(map_to_pos(x)) == x`). -/
def map_to_pos_inv (m u : Nat) : Nat :=
  if u % 2 = 0 then u / 2 else m - (u + 1) / 2

/-- Modelled from the spec: `lossy_rounding_16` rounds the first `samples`
elements of a 16-bit buffer with `round_fwd` (cmp_support.c is not under
src/; the spec defines per-field rounding as `v >> k`). -/
def lossy_rounding_16 (buf : List Nat) (samples k : Nat) : List Nat :=
  ((buf.take samples).map (fun v => round_fwd v k)) ++ buf.drop samples

/-- Modelled from the spec: `lossy_rounding_32`, as `lossy_rounding_16`
but on a 32-bit buffer. -/
def lossy_rounding_32 (buf : List Nat) (samples k : Nat) : List Nat :=
  ((buf.take samples).map (fun v => round_fwd v k)) ++ buf.drop samples

/-- The tail-to-head differencing loop of `diff_16` / `diff_32`:
for `i = samples-1, ..., 1` do `data[i] = data[i] - data[i-1]` (wrapping
at width `m`).  Processing from the tail means each step reads the still
untransformed predecessor. -/
def diffLoop (m : Nat) : List Nat → Nat → List Nat
  | a, 0 => a
  | a, i + 1 => diffLoop m (a.set (i + 1) (wsub m (a.getD (i + 1) 0) (a.getD i 0))) i

/-- The function `diff_16` of icu_cmp.c: 1d-differencing pre-processing
with rounding of a `uint16_t` buffer (returns status and new contents). -/
def diff_16 (buf : List Nat) (samples k : Nat) : Int × List Nat :=
  if samples = 0 then (0, buf)
  else (0, diffLoop M16 (lossy_rounding_16 buf samples k) (samples - 1))

/-- The function `diff_32` of icu_cmp.c: 1d-differencing pre-processing
with rounding of a `uint32_t` buffer. -/
def diff_32 (buf : List Nat) (samples k : Nat) : Int × List Nat :=
  if samples = 0 then (0, buf)
  else (0, diffLoop M32 (lossy_rounding_32 buf samples k) (samples - 1))

/-- The function `cal_multi_offset` of icu_cmp.c: the 16-row step table
classifying the magnitude of the unencoded outlier data. -/
def cal_multi_offset (unencoded_data : Nat) : Nat :=
  if unencoded_data ≤ 0x3 then 0
  else if unencoded_data ≤ 0xF then 1
  else if unencoded_data ≤ 0x3F then 2
  else if unencoded_data ≤ 0xFF then 3
  else if unencoded_data ≤ 0x3FF then 4
  else if unencoded_data ≤ 0xFFF then 5
  else if unencoded_data ≤ 0x3FFF then 6
  else if unencoded_data ≤ 0xFFFF then 7
  else if unencoded_data ≤ 0x3FFFF then 8
  else if unencoded_data ≤ 0xFFFFF then 9
  else if unencoded_data ≤ 0x3FFFFF then 10
  else if unencoded_data ≤ 0xFFFFFF then 11
  else if unencoded_data ≤ 0x3FFFFFF then 12
  else if unencoded_data ≤ 0xFFFFFFF then 13
  else if unencoded_data ≤ 0x3FFFFFFF then 14
  else 15

/-- The function `put_n_bits32` of icu_cmp.c: write the `nBits` low bits of
`value` at `bitOffset` into the big-endian 32-bit word stream `destAddr`
whose length is `dest_len` 16-bit words.  Returns the number of bits
written, `0` for `nBits = 0` or `nBits > 32`, and the small-buffer
sentinel `-2` when the write would exceed the capacity
`((dest_len+1)/2)*2*16` bits (the capacity check comes first in the
source). -/
def put_n_bits32 (value bitOffset nBits : Nat) (destAddr : List Nat)
    (dest_len : Nat) : Int × List Nat :=
  if bitOffset + nBits > ((dest_len + 1) / 2) * 2 * 16 then (-2, destAddr)
  else if nBits = 0 then (0, destAddr)
  else if nBits > 32 then (0, destAddr)
  else
    let wordIdx := bitOffset >>> 5
    let bitsLeft := bitOffset % 32
    let shiftRight := 32 - nBits
    let mask0 := 0xffffffff >>> shiftRight
    let v := value.land mask0
    let localEndPos := bitsLeft + nBits
    if localEndPos ≤ 32 then
      let shiftLeft := shiftRight - bitsLeft
      let mask := mask0 <<< shiftLeft
      let w := destAddr.getD wordIdx 0
      let w1 := (w.land (0xffffffff - mask)).lor (v <<< (32 - localEndPos))
      ((nBits : Int), destAddr.set wordIdx w1)
    else
      let n2 := bitsLeft + nBits - 32
      let mask1 := 0xffffffff >>> bitsLeft
      let w := destAddr.getD wordIdx 0
      let w1 := (w.land (0xffffffff - mask1)).lor (v >>> n2)
      let d1 := destAddr.set wordIdx w1
      let shiftLeft2 := 64 - bitsLeft - nBits
      let mask2 := (0xffffffff <<< shiftLeft2) % M32
      let w2 := d1.getD (wordIdx + 1) 0
      let w3 := (w2.land (0xffffffff - mask2)).lor ((v <<< (32 - n2)) % M32)
      ((nBits : Int), d1.set (wordIdx + 1) w3)

/-- The function `Rice_encoder` of icu_cmp.c, returning the pair
(codeword length, codeword).  `uint` arithmetic wraps at `2^32`; a C
shift count of 32 or more is undefined behaviour, modelled here as the
mathematical shift followed by the wrap. -/
def Rice_encoder (value m log2_m : Nat) : Nat × Nat :=
  let g := value >>> log2_m
  let q := wsub M32 (1 <<< g) 1
  let r := value.land (m - 1)
  let rl := log2_m + 1
  (rl + g, ((q <<< rl) % M32).lor r)

/-- The function `Golomb_encoder` of icu_cmp.c, returning the pair
(codeword length, codeword), with the same wrap-around conventions as
`Rice_encoder`. -/
def Golomb_encoder (value m log2_m : Nat) : Nat × Nat :=
  let len0 := log2_m + 1
  let cutoff0 := wsub M32 (1 <<< (log2_m + 1)) m
  let cutoff := if cutoff0 = 0 then m else cutoff0
  if value < cutoff then (len0, value)
  else
    let b := (cutoff <<< 1) % M32
    let g := (wsub M32 value cutoff) / m
    let lg := len0 + g
    let q := wsub M32 (1 <<< g) 1
    let cw := ((q <<< (len0 + 1)) + b + wsub M32 value cutoff - g * m) % M32
    (lg + 1, cw)

/-- The two codeword families behind the `encoder_ptr` function pointer. -/
inductive EncoderKind where
  | rice
  | golomb
  deriving DecidableEq, Repr

/-- Dispatch through the `encoder_ptr` function pointer. -/
def applyEncoder : EncoderKind → Nat → Nat → Nat → Nat × Nat
  | .rice, v, m, l => Rice_encoder v m l
  | .golomb, v, m, l => Golomb_encoder v m l

/-- The function `select_encoder` of icu_cmp.c (NULL for a zero divisor,
Rice for powers of two, Golomb otherwise). -/
def select_encoder (golomb_par : Nat) : Option EncoderKind :=
  if golomb_par = 0 then none
  else if is_a_pow_of_2 golomb_par then some EncoderKind.rice
  else some EncoderKind.golomb

/-- The compression configuration `struct cmp_cfg` (the fields the
compressor reads).  Buffer handles are modelled as addresses, `0`
standing for NULL. -/
structure CmpCfg where
  cmp_mode : CmpMode
  golomb_par : Nat
  spill : Nat
  model_value : Nat
  round : Nat
  samples : Nat
  buffer_length : Nat
  input_buf : Nat
  icu_output_buf : Nat
  model_buf : Nat
  icu_new_model_buf : Nat
  rdcu_new_model_adr : Nat
  rdcu_buffer_adr : Nat
  deriving DecidableEq, Repr

/-- The `struct encoder_struct` of icu_cmp.c. -/
structure encoder_struct where
  encoder : Option EncoderKind
  log2_golomb_par : Nat
  cmp_size : Nat
  deriving DecidableEq, Repr

/-- The function `encode_normal` of icu_cmp.c: emit one Rice/Golomb
codeword and advance the bit cursor. -/
def encode_normal (value_to_encode : Nat) (cfg : CmpCfg) (enc : encoder_struct)
    (out : List Nat) : Int × encoder_struct × List Nat :=
  match enc.encoder with
  | none => (-1, enc, out)
  | some ek =>
    let lc := applyEncoder ek value_to_encode cfg.golomb_par enc.log2_golomb_par
    let p := put_n_bits32 lc.2 enc.cmp_size lc.1 out cfg.buffer_length
    if p.1 ≤ 0 then (p.1, enc, p.2)
    else (0, { enc with cmp_size := enc.cmp_size + lc.1 }, p.2)

/-- The function `encode_outlier_zero` of icu_cmp.c: emit the zero escape
symbol (whose status the source discards) followed by the raw value. -/
def encode_outlier_zero (value_to_encode max_bits : Nat) (cfg : CmpCfg)
    (enc : encoder_struct) (out : List Nat) : Int × encoder_struct × List Nat :=
  if max_bits > 32 then (-1, enc, out)
  else
    let r1 := encode_normal 0 cfg enc out
    let p := put_n_bits32 value_to_encode r1.2.1.cmp_size max_bits r1.2.2 cfg.buffer_length
    if p.1 ≤ 0 then (p.1, r1.2.1, p.2)
    else (0, { r1.2.1 with cmp_size := r1.2.1.cmp_size + max_bits }, p.2)

/-- The function `encode_outlier_multi` of icu_cmp.c: emit the escape
symbol `spill + offset` (status discarded by the source) followed by the
difference to the spillover threshold as `(offset+1)*2` raw bits. -/
def encode_outlier_multi (value_to_encode : Nat) (cfg : CmpCfg)
    (enc : encoder_struct) (out : List Nat) : Int × encoder_struct × List Nat :=
  let unencoded_data := wsub M32 value_to_encode cfg.spill
  let escape_sym_offset := cal_multi_offset unencoded_data
  let escape_sym := (cfg.spill + escape_sym_offset) % M32
  let unencoded_data_len := (escape_sym_offset + 1) * 2
  let r1 := encode_normal escape_sym cfg enc out
  let p := put_n_bits32 unencoded_data r1.2.1.cmp_size unencoded_data_len r1.2.2 cfg.buffer_length
  if p.1 ≤ 0 then (p.1, r1.2.1, p.2)
  else (0, { r1.2.1 with cmp_size := r1.2.1.cmp_size + unencoded_data_len }, p.2)

/-- The function `encode_outlier` of icu_cmp.c. -/
def encode_outlier (value_to_encode : Nat) (bit_len : Nat) (cfg : CmpCfg)
    (enc : encoder_struct) (out : List Nat) : Int × encoder_struct × List Nat :=
  if multi_escape_mech_is_used cfg.cmp_mode then
    encode_outlier_multi value_to_encode cfg enc out
  else if zero_escape_mech_is_used cfg.cmp_mode then
    encode_outlier_zero value_to_encode bit_len cfg enc out
  else (-1, enc, out)

/-- The function `encode_value` of icu_cmp.c: outlier path for
`value >= spill`, and additionally for `value == 0` under zero escape. -/
def encode_value (value_to_encode : Nat) (bit_len : Nat) (cfg : CmpCfg)
    (enc : encoder_struct) (out : List Nat) : Int × encoder_struct × List Nat :=
  if value_to_encode ≥ cfg.spill ∨
     (zero_escape_mech_is_used cfg.cmp_mode ∧ value_to_encode = 0) then
    encode_outlier value_to_encode bit_len cfg enc out
  else
    encode_normal value_to_encode cfg enc out

/-- The S_FX record of n_dpu_pkt.h (exposure flags 8 bit, flux 32 bit). -/
structure S_FX where
  EXPOSURE_FLAGS : Nat
  FX : Nat
  deriving DecidableEq, Repr, Inhabited

/-- The S_FX_EFX record of n_dpu_pkt.h. -/
structure S_FX_EFX where
  EXPOSURE_FLAGS : Nat
  FX : Nat
  EFX : Nat
  deriving DecidableEq, Repr, Inhabited

/-- The S_FX_NCOB record of n_dpu_pkt.h. -/
structure S_FX_NCOB where
  EXPOSURE_FLAGS : Nat
  FX : Nat
  NCOB_X : Nat
  NCOB_Y : Nat
  deriving DecidableEq, Repr, Inhabited

/-- The S_FX_EFX_NCOB_ECOB record of n_dpu_pkt.h. -/
structure S_FX_EFX_NCOB_ECOB where
  EXPOSURE_FLAGS : Nat
  FX : Nat
  NCOB_X : Nat
  NCOB_Y : Nat
  EFX : Nat
  ECOB_X : Nat
  ECOB_Y : Nat
  deriving DecidableEq, Repr, Inhabited

/-- Modelled from the spec: `sub_S_FX` (per-field wrapping subtraction,
n_dpu_pkt.h is not under src/). -/
def sub_S_FX (a b : S_FX) : S_FX :=
  { EXPOSURE_FLAGS := wsub 256 a.EXPOSURE_FLAGS b.EXPOSURE_FLAGS
    FX := wsub M32 a.FX b.FX }

/-- Modelled from the spec: `sub_S_FX_EFX`. -/
def sub_S_FX_EFX (a b : S_FX_EFX) : S_FX_EFX :=
  { EXPOSURE_FLAGS := wsub 256 a.EXPOSURE_FLAGS b.EXPOSURE_FLAGS
    FX := wsub M32 a.FX b.FX
    EFX := wsub M32 a.EFX b.EFX }

/-- Modelled from the spec: `sub_S_FX_NCOB`. -/
def sub_S_FX_NCOB (a b : S_FX_NCOB) : S_FX_NCOB :=
  { EXPOSURE_FLAGS := wsub 256 a.EXPOSURE_FLAGS b.EXPOSURE_FLAGS
    FX := wsub M32 a.FX b.FX
    NCOB_X := wsub M32 a.NCOB_X b.NCOB_X
    NCOB_Y := wsub M32 a.NCOB_Y b.NCOB_Y }

/-- Modelled from the spec: `sub_S_FX_EFX_NCOB_ECOB`. -/
def sub_S_FX_EFX_NCOB_ECOB (a b : S_FX_EFX_NCOB_ECOB) : S_FX_EFX_NCOB_ECOB :=
  { EXPOSURE_FLAGS := wsub 256 a.EXPOSURE_FLAGS b.EXPOSURE_FLAGS
    FX := wsub M32 a.FX b.FX
    NCOB_X := wsub M32 a.NCOB_X b.NCOB_X
    NCOB_Y := wsub M32 a.NCOB_Y b.NCOB_Y
    EFX := wsub M32 a.EFX b.EFX
    ECOB_X := wsub M32 a.ECOB_X b.ECOB_X
    ECOB_Y := wsub M32 a.ECOB_Y b.ECOB_Y }

/-- Modelled from the spec: per-sample lossy rounding of an S_FX record
(`round_fwd` on each field). -/
def round_S_FX (s : S_FX) (k : Nat) : S_FX :=
  { EXPOSURE_FLAGS := round_fwd s.EXPOSURE_FLAGS k, FX := round_fwd s.FX k }

/-- Modelled from the spec: per-sample lossy rounding of an S_FX_EFX record. -/
def round_S_FX_EFX (s : S_FX_EFX) (k : Nat) : S_FX_EFX :=
  { EXPOSURE_FLAGS := round_fwd s.EXPOSURE_FLAGS k, FX := round_fwd s.FX k
    EFX := round_fwd s.EFX k }

/-- Modelled from the spec: per-sample lossy rounding of an S_FX_NCOB record. -/
def round_S_FX_NCOB (s : S_FX_NCOB) (k : Nat) : S_FX_NCOB :=
  { EXPOSURE_FLAGS := round_fwd s.EXPOSURE_FLAGS k, FX := round_fwd s.FX k
    NCOB_X := round_fwd s.NCOB_X k, NCOB_Y := round_fwd s.NCOB_Y k }

/-- Modelled from the spec: per-sample lossy rounding of an
S_FX_EFX_NCOB_ECOB record. -/
def round_S_FX_EFX_NCOB_ECOB (s : S_FX_EFX_NCOB_ECOB) (k : Nat) : S_FX_EFX_NCOB_ECOB :=
  { EXPOSURE_FLAGS := round_fwd s.EXPOSURE_FLAGS k, FX := round_fwd s.FX k
    NCOB_X := round_fwd s.NCOB_X k, NCOB_Y := round_fwd s.NCOB_Y k
    EFX := round_fwd s.EFX k, ECOB_X := round_fwd s.ECOB_X k
    ECOB_Y := round_fwd s.ECOB_Y k }

/-- Modelled from the spec: `de_lossy_rounding_S_FX` (`round_inv` on each
field, wrapping at the field width). -/
def de_round_S_FX (s : S_FX) (k : Nat) : S_FX :=
  { EXPOSURE_FLAGS := round_inv s.EXPOSURE_FLAGS k % 256
    FX := round_inv s.FX k % M32 }

/-- Modelled from the spec: `cal_up_model_S_FX` (per-field weighted blend). -/
def cal_up_model_S_FX (a b : S_FX) (w : Nat) : S_FX :=
  { EXPOSURE_FLAGS := cal_up_model a.EXPOSURE_FLAGS b.EXPOSURE_FLAGS w % 256
    FX := cal_up_model a.FX b.FX w }

/-- The tail-to-head differencing loop of `diff_S_FX`. -/
def diffLoop_S_FX (a : List S_FX) : Nat → List S_FX
  | 0 => a
  | i + 1 =>
    diffLoop_S_FX (a.set (i + 1) (sub_S_FX (a.getD (i + 1) default) (a.getD i default))) i

/-- The tail-to-head differencing loop of `diff_S_FX_EFX`. -/
def diffLoop_S_FX_EFX (a : List S_FX_EFX) : Nat → List S_FX_EFX
  | 0 => a
  | i + 1 =>
    diffLoop_S_FX_EFX (a.set (i + 1) (sub_S_FX_EFX (a.getD (i + 1) default) (a.getD i default))) i

/-- The tail-to-head differencing loop of `diff_S_FX_NCOB`. -/
def diffLoop_S_FX_NCOB (a : List S_FX_NCOB) : Nat → List S_FX_NCOB
  | 0 => a
  | i + 1 =>
    diffLoop_S_FX_NCOB (a.set (i + 1) (sub_S_FX_NCOB (a.getD (i + 1) default) (a.getD i default))) i

/-- The tail-to-head differencing loop of `diff_S_FX_EFX_NCOB_ECOB`. -/
def diffLoop_S_FX_EFX_NCOB_ECOB (a : List S_FX_EFX_NCOB_ECOB) : Nat → List S_FX_EFX_NCOB_ECOB
  | 0 => a
  | i + 1 =>
    diffLoop_S_FX_EFX_NCOB_ECOB
      (a.set (i + 1) (sub_S_FX_EFX_NCOB_ECOB (a.getD (i + 1) default) (a.getD i default))) i

/-- The function `diff_S_FX` of icu_cmp.c. -/
def diff_S_FX (buf : List S_FX) (samples k : Nat) : Int × List S_FX :=
  if samples = 0 then (0, buf)
  else
    let rounded := ((buf.take samples).map (fun s => round_S_FX s k)) ++ buf.drop samples
    (0, diffLoop_S_FX rounded (samples - 1))

/-- The function `diff_S_FX_EFX` of icu_cmp.c. -/
def diff_S_FX_EFX (buf : List S_FX_EFX) (samples k : Nat) : Int × List S_FX_EFX :=
  if samples = 0 then (0, buf)
  else
    let rounded := ((buf.take samples).map (fun s => round_S_FX_EFX s k)) ++ buf.drop samples
    (0, diffLoop_S_FX_EFX rounded (samples - 1))

/-- The function `diff_S_FX_NCOB` of icu_cmp.c. -/
def diff_S_FX_NCOB (buf : List S_FX_NCOB) (samples k : Nat) : Int × List S_FX_NCOB :=
  if samples = 0 then (0, buf)
  else
    let rounded := ((buf.take samples).map (fun s => round_S_FX_NCOB s k)) ++ buf.drop samples
    (0, diffLoop_S_FX_NCOB rounded (samples - 1))

/-- The function `diff_S_FX_EFX_NCOB_ECOB` of icu_cmp.c. -/
def diff_S_FX_EFX_NCOB_ECOB (buf : List S_FX_EFX_NCOB_ECOB) (samples k : Nat) :
    Int × List S_FX_EFX_NCOB_ECOB :=
  if samples = 0 then (0, buf)
  else
    let rounded :=
      ((buf.take samples).map (fun s => round_S_FX_EFX_NCOB_ECOB s k)) ++ buf.drop samples
    (0, diffLoop_S_FX_EFX_NCOB_ECOB rounded (samples - 1))

/-- The per-sample loop of `model_16` of icu_cmp.c: the residual goes to
the data buffer, the blended model (cast to `uint16_t`) to the updated
model buffer; entries beyond `samples` keep the prior contents. -/
def model_16_core (data model upPrior : List Nat) (samples model_value k : Nat) :
    List Nat × List Nat :=
  let pairs := (data.take samples).zip (model.take samples)
  let newData :=
    (pairs.map (fun p => wsub M16 (round_fwd p.1 k) (round_fwd p.2 k))) ++ data.drop samples
  let newUp :=
    (pairs.map (fun p => cal_up_model (round_inv (round_fwd p.1 k) k) p.2 model_value % M16))
      ++ upPrior.drop samples
  (newData, newUp)

/-- The per-sample loop of `model_32` of icu_cmp.c: as `model_16` but the
updated model always goes back into the model buffer (the source takes no
separate updated-model argument). -/
def model_32_core (data model : List Nat) (samples model_value k : Nat) :
    List Nat × List Nat :=
  let pairs := (data.take samples).zip (model.take samples)
  let newData :=
    (pairs.map (fun p => wsub M32 (round_fwd p.1 k) (round_fwd p.2 k))) ++ data.drop samples
  let newModel :=
    (pairs.map (fun p => cal_up_model (round_inv (round_fwd p.1 k) k) p.2 model_value))
      ++ model.drop samples
  (newData, newModel)

/-- The per-sample loop of `model_S_FX` of icu_cmp.c: round data and model,
subtract per field, round the data back and blend it with the unrounded
prior model. -/
def model_S_FX_core (data model upPrior : List S_FX) (samples model_value k : Nat) :
    List S_FX × List S_FX :=
  let pairs := (data.take samples).zip (model.take samples)
  let newData :=
    (pairs.map (fun p => sub_S_FX (round_S_FX p.1 k) (round_S_FX p.2 k))) ++ data.drop samples
  let newUp :=
    (pairs.map (fun p => cal_up_model_S_FX (de_round_S_FX (round_S_FX p.1 k) k) p.2 model_value))
      ++ upPrior.drop samples
  (newData, newUp)

/-- The per-sample loop of `map_to_pos_16` of icu_cmp.c (wrapping `+= 1`
under the zero-escape mechanism). -/
def map_to_pos_16 (data : List Nat) (samples : Nat) (zero_mode_used : Bool) : List Nat :=
  (data.take samples).map
      (fun v => if zero_mode_used then (map_to_pos_alg_16 v + 1) % M16 else map_to_pos_alg_16 v)
    ++ data.drop samples

/-- The per-sample loop of `map_to_pos_32` of icu_cmp.c. -/
def map_to_pos_32 (data : List Nat) (samples : Nat) (zero_mode_used : Bool) : List Nat :=
  (data.take samples).map
      (fun v => if zero_mode_used then (map_to_pos_alg_32 v + 1) % M32 else map_to_pos_alg_32 v)
    ++ data.drop samples

/-- The per-sample loop of `map_to_pos_S_FX` of icu_cmp.c.  The increment
of the exposure-flags field under zero escape is commented out in the
source, so only FX is biased. -/
def map_to_pos_S_FX (data : List S_FX) (samples : Nat) (zero_mode_used : Bool) : List S_FX :=
  (data.take samples).map
      (fun s =>
        { EXPOSURE_FLAGS := map_to_pos_alg_8 s.EXPOSURE_FLAGS
          FX := if zero_mode_used then (map_to_pos_alg_32 s.FX + 1) % M32
                else map_to_pos_alg_32 s.FX })
    ++ data.drop samples

/-- The per-sample loop of `map_to_pos_S_FX_EFX` of icu_cmp.c (exposure
flags again unbiased). -/
def map_to_pos_S_FX_EFX (data : List S_FX_EFX) (samples : Nat) (zero_mode_used : Bool) :
    List S_FX_EFX :=
  (data.take samples).map
      (fun s =>
        { EXPOSURE_FLAGS := map_to_pos_alg_8 s.EXPOSURE_FLAGS
          FX := if zero_mode_used then (map_to_pos_alg_32 s.FX + 1) % M32
                else map_to_pos_alg_32 s.FX
          EFX := if zero_mode_used then (map_to_pos_alg_32 s.EFX + 1) % M32
                 else map_to_pos_alg_32 s.EFX })
    ++ data.drop samples

/-- The per-sample loop of `map_to_pos_S_FX_NCOB` of icu_cmp.c. -/
def map_to_pos_S_FX_NCOB (data : List S_FX_NCOB) (samples : Nat) (zero_mode_used : Bool) :
    List S_FX_NCOB :=
  (data.take samples).map
      (fun s =>
        { EXPOSURE_FLAGS := map_to_pos_alg_8 s.EXPOSURE_FLAGS
          FX := if zero_mode_used then (map_to_pos_alg_32 s.FX + 1) % M32
                else map_to_pos_alg_32 s.FX
          NCOB_X := if zero_mode_used then (map_to_pos_alg_32 s.NCOB_X + 1) % M32
                    else map_to_pos_alg_32 s.NCOB_X
          NCOB_Y := if zero_mode_used then (map_to_pos_alg_32 s.NCOB_Y + 1) % M32
                    else map_to_pos_alg_32 s.NCOB_Y })
    ++ data.drop samples

/-- The per-sample loop of `map_to_pos_S_FX_EFX_NCOB_ECOB` of icu_cmp.c. -/
def map_to_pos_S_FX_EFX_NCOB_ECOB (data : List S_FX_EFX_NCOB_ECOB) (samples : Nat)
    (zero_mode_used : Bool) : List S_FX_EFX_NCOB_ECOB :=
  (data.take samples).map
      (fun s =>
        { EXPOSURE_FLAGS := map_to_pos_alg_8 s.EXPOSURE_FLAGS
          FX := if zero_mode_used then (map_to_pos_alg_32 s.FX + 1) % M32
                else map_to_pos_alg_32 s.FX
          NCOB_X := if zero_mode_used then (map_to_pos_alg_32 s.NCOB_X + 1) % M32
                    else map_to_pos_alg_32 s.NCOB_X
          NCOB_Y := if zero_mode_used then (map_to_pos_alg_32 s.NCOB_Y + 1) % M32
                    else map_to_pos_alg_32 s.NCOB_Y
          EFX := if zero_mode_used then (map_to_pos_alg_32 s.EFX + 1) % M32
                 else map_to_pos_alg_32 s.EFX
          ECOB_X := if zero_mode_used then (map_to_pos_alg_32 s.ECOB_X + 1) % M32
                    else map_to_pos_alg_32 s.ECOB_X
          ECOB_Y := if zero_mode_used then (map_to_pos_alg_32 s.ECOB_Y + 1) % M32
                    else map_to_pos_alg_32 s.ECOB_Y })
    ++ data.drop samples

/-- Contents of a caller buffer.  The C code reinterprets raw memory per
mode; we tag the contents with a shape instead and theorems about
data-reading paths carry well-typedness hypotheses. -/
inductive BufData where
  | u16 (l : List Nat)
  | u32 (l : List Nat)
  | sfx (l : List S_FX)
  | sfxefx (l : List S_FX_EFX)
  | sfxncob (l : List S_FX_NCOB)
  | sfxecob (l : List S_FX_EFX_NCOB_ECOB)
  deriving DecidableEq, Repr

/-- View a buffer as `uint16_t` data (a shape mismatch, which in C would
be an untyped reinterpretation, yields the empty list). -/
def BufData.as16 : BufData → List Nat
  | .u16 l => l
  | _ => []

/-- View a buffer as `uint32_t` data. -/
def BufData.as32 : BufData → List Nat
  | .u32 l => l
  | _ => []

/-- View a buffer as S_FX data. -/
def BufData.asSFX : BufData → List S_FX
  | .sfx l => l
  | _ => []

/-- View a buffer as S_FX_EFX data. -/
def BufData.asSFXEFX : BufData → List S_FX_EFX
  | .sfxefx l => l
  | _ => []

/-- View a buffer as S_FX_NCOB data. -/
def BufData.asSFXNCOB : BufData → List S_FX_NCOB
  | .sfxncob l => l
  | _ => []

/-- View a buffer as S_FX_EFX_NCOB_ECOB data. -/
def BufData.asSFXECOB : BufData → List S_FX_EFX_NCOB_ECOB
  | .sfxecob l => l
  | _ => []

/-- The caller-provided storage borrowed by one compression call: the
contents behind `input_buf`, `model_buf` and `icu_new_model_buf`, the
32-bit word stream behind `icu_output_buf`, and the same output seen as
bytes by the raw-mode memcpy. -/
structure CmpMem where
  input : BufData
  model : BufData
  newModel : BufData
  outputWords : List Nat
  outputRaw : List Nat
  deriving DecidableEq, Repr

/-- The result record `struct cmp_info` (the fields icu_cmp.c writes). -/
structure cmp_info where
  cmp_err : Nat
  cmp_mode_used : CmpMode
  model_value_used : Nat
  round_used : Nat
  spill_used : Nat
  golomb_par_used : Nat
  samples_used : Nat
  cmp_size : Nat
  ap1_cmp_size : Nat
  ap2_cmp_size : Nat
  rdcu_new_model_adr_used : Nat
  rdcu_cmp_adr_used : Nat
  deriving DecidableEq, Repr

/-- The function `set_info` of icu_cmp.c: reject parameters that do not
fit the `uint8_t` info fields, then mirror the configuration into the
info record.  The `cmp_mode > UINT8_MAX` guard of the source has no
counterpart here because every representable mode has a numeric code
below 256. -/
def set_info (cfg : CmpCfg) (info : Option cmp_info) : Int × Option cmp_info :=
  if cfg.round > 255 then (-1, info)
  else if cfg.model_value > 255 then (-1, info)
  else
    match info with
    | none => (0, none)
    | some i =>
      (0, some { i with
                 cmp_err := 0
                 cmp_mode_used := cfg.cmp_mode
                 model_value_used := cfg.model_value
                 round_used := cfg.round
                 spill_used := cfg.spill
                 golomb_par_used := cfg.golomb_par
                 samples_used := cfg.samples
                 cmp_size := 0
                 ap1_cmp_size := 0
                 ap2_cmp_size := 0
                 rdcu_new_model_adr_used := cfg.rdcu_new_model_adr
                 rdcu_cmp_adr_used := cfg.rdcu_buffer_adr })

/-- Indicator used to count failed validator checks. -/
def bool01 (b : Prop) [Decidable b] : Nat := if b then 1 else 0

/-- The number of problems `icu_cmp_cfg_valid` of icu_cmp.c detects
(the function returns the negated count).  The checks appear in source
order; a raw mode returns before the parameter checks. -/
def cfg_invalid_count (cfg : CmpCfg) : Nat :=
  let c1 := bool01 (cfg.input_buf = 0)
  let c2 := bool01 (cfg.icu_output_buf = 0)
  let c3 := bool01 (cfg.buffer_length = 0 ∧ cfg.samples ≠ 0)
  let c4 := bool01 (cfg.icu_output_buf = cfg.input_buf)
  let cm :=
    if model_mode_is_used cfg.cmp_mode then
      bool01 (cfg.model_buf = 0) + bool01 (cfg.model_buf = cfg.input_buf) +
      bool01 (cfg.model_buf = cfg.icu_output_buf) +
      bool01 (cfg.icu_new_model_buf = cfg.input_buf) +
      bool01 (cfg.icu_new_model_buf = cfg.icu_output_buf)
    else 0
  let cr :=
    if raw_mode_is_used cfg.cmp_mode then bool01 (cfg.samples > cfg.buffer_length) else 0
  let cmode :=
    bool01 ((diff_mode_is_used cfg.cmp_mode || model_mode_is_used cfg.cmp_mode ||
             raw_mode_is_used cfg.cmp_mode) = false)
  let base := c1 + c2 + c3 + c4 + cm + cr + cmode
  if raw_mode_is_used cfg.cmp_mode then base
  else
    base +
    (if model_mode_is_used cfg.cmp_mode then bool01 (cfg.model_value > MAX_MODEL_VALUE) else 0) +
    bool01 (cfg.golomb_par < MIN_ICU_GOLOMB_PAR ∨ cfg.golomb_par > MAX_ICU_GOLOMB_PAR) +
    bool01 (cfg.spill < MIN_ICU_SPILL) +
    bool01 (cfg.spill > get_max_spill cfg.golomb_par cfg.cmp_mode) +
    bool01 (cfg.round > MAX_ICU_ROUND)

/-- The error bits `icu_cmp_cfg_valid` deposits in `info.cmp_err`
(after first resetting it to zero).  The round check sets no bit. -/
def cfg_err_bits (cfg : CmpCfg) : Nat :=
  let bMode :=
    if (diff_mode_is_used cfg.cmp_mode || model_mode_is_used cfg.cmp_mode ||
        raw_mode_is_used cfg.cmp_mode) = false then 1 <<< CMP_MODE_ERR_BIT else 0
  if raw_mode_is_used cfg.cmp_mode then bMode
  else
    let bMv :=
      if model_mode_is_used cfg.cmp_mode ∧ cfg.model_value > MAX_MODEL_VALUE then
        1 <<< MODEL_VALUE_ERR_BIT
      else 0
    let bGp :=
      if cfg.golomb_par < MIN_ICU_GOLOMB_PAR ∨ cfg.golomb_par > MAX_ICU_GOLOMB_PAR then
        1 <<< CMP_PAR_ERR_BIT
      else 0
    let bSpLo := if cfg.spill < MIN_ICU_SPILL then 1 <<< CMP_PAR_ERR_BIT else 0
    let bSpHi :=
      if cfg.spill > get_max_spill cfg.golomb_par cfg.cmp_mode then 1 <<< CMP_PAR_ERR_BIT else 0
    Nat.lor bMode (Nat.lor bMv (Nat.lor bGp (Nat.lor bSpLo bSpHi)))

/-- The function `icu_cmp_cfg_valid` of icu_cmp.c: the negated problem
count plus the error bits written into the info record. -/
def icu_cmp_cfg_valid (cfg : CmpCfg) (info : Option cmp_info) : Int × Option cmp_info :=
  (-(cfg_invalid_count cfg : Int),
   info.map (fun i => { i with cmp_err := cfg_err_bits cfg }))

/-- The function `pre_process` of icu_cmp.c.  The NULL-pointer and
model-value guards of the per-shape helpers are hoisted to this
dispatcher because the list-level helpers cannot see the pointers.
An updated-model pointer that is NULL or aliases the model buffer makes
the 16-bit and S_FX model helpers update the model storage in place. -/
def pre_process (cfg : CmpCfg) (m : CmpMem) : Int × CmpMem :=
  if cfg.samples = 0 then (0, m)
  else if cfg.input_buf = 0 then (-1, m)
  else
    match cfg.cmp_mode with
    | MODE_RAW | MODE_RAW_S_FX => (0, m)
    | MODE_MODEL_ZERO | MODE_MODEL_MULTI =>
      if cfg.model_buf = 0 then (-1, m)
      else if cfg.model_value > MAX_MODEL_VALUE then (-1, m)
      else
        if cfg.icu_new_model_buf = 0 ∨ cfg.icu_new_model_buf = cfg.model_buf then
          let r := model_16_core m.input.as16 m.model.as16 m.model.as16
                     cfg.samples cfg.model_value cfg.round
          (0, { m with input := .u16 r.1, model := .u16 r.2 })
        else
          let r := model_16_core m.input.as16 m.model.as16 m.newModel.as16
                     cfg.samples cfg.model_value cfg.round
          (0, { m with input := .u16 r.1, newModel := .u16 r.2 })
    | MODE_DIFF_ZERO | MODE_DIFF_MULTI =>
      let r := diff_16 m.input.as16 cfg.samples cfg.round
      (r.1, { m with input := .u16 r.2 })
    | MODE_MODEL_ZERO_S_FX | MODE_MODEL_MULTI_S_FX =>
      if cfg.model_buf = 0 then (-1, m)
      else if cfg.model_value > MAX_MODEL_VALUE then (-1, m)
      else
        if cfg.icu_new_model_buf = 0 ∨ cfg.icu_new_model_buf = cfg.model_buf then
          let r := model_S_FX_core m.input.asSFX m.model.asSFX m.model.asSFX
                     cfg.samples cfg.model_value cfg.round
          (0, { m with input := .sfx r.1, model := .sfx r.2 })
        else
          let r := model_S_FX_core m.input.asSFX m.model.asSFX m.newModel.asSFX
                     cfg.samples cfg.model_value cfg.round
          (0, { m with input := .sfx r.1, newModel := .sfx r.2 })
    | MODE_DIFF_ZERO_S_FX | MODE_DIFF_MULTI_S_FX =>
      let r := diff_S_FX m.input.asSFX cfg.samples cfg.round
      (r.1, { m with input := .sfx r.2 })
    | MODE_DIFF_ZERO_S_FX_EFX | MODE_DIFF_MULTI_S_FX_EFX =>
      let r := diff_S_FX_EFX m.input.asSFXEFX cfg.samples cfg.round
      (r.1, { m with input := .sfxefx r.2 })
    | MODE_DIFF_ZERO_S_FX_NCOB | MODE_DIFF_MULTI_S_FX_NCOB =>
      let r := diff_S_FX_NCOB m.input.asSFXNCOB cfg.samples cfg.round
      (r.1, { m with input := .sfxncob r.2 })
    | MODE_DIFF_ZERO_S_FX_EFX_NCOB_ECOB | MODE_DIFF_MULTI_S_FX_EFX_NCOB_ECOB =>
      let r := diff_S_FX_EFX_NCOB_ECOB m.input.asSFXECOB cfg.samples cfg.round
      (r.1, { m with input := .sfxecob r.2 })
    | MODE_MODEL_ZERO_32 | MODE_MODEL_MULTI_32
    | MODE_MODEL_ZERO_F_FX | MODE_MODEL_MULTI_F_FX =>
      if cfg.model_buf = 0 then (-1, m)
      else if cfg.model_value > MAX_MODEL_VALUE then (-1, m)
      else
        let r := model_32_core m.input.as32 m.model.as32 cfg.samples cfg.model_value cfg.round
        (0, { m with input := .u32 r.1, model := .u32 r.2 })
    | MODE_DIFF_ZERO_32 | MODE_DIFF_MULTI_32
    | MODE_DIFF_ZERO_F_FX | MODE_DIFF_MULTI_F_FX =>
      let r := diff_32 m.input.as32 cfg.samples cfg.round
      (r.1, { m with input := .u32 r.2 })
    | MODE_MODEL_ZERO_S_FX_EFX | MODE_MODEL_MULTI_S_FX_EFX
    | MODE_MODEL_ZERO_S_FX_NCOB | MODE_MODEL_MULTI_S_FX_NCOB
    | MODE_MODEL_ZERO_S_FX_EFX_NCOB_ECOB | MODE_MODEL_MULTI_S_FX_EFX_NCOB_ECOB =>
      (-1, m)

/-- The function `map_to_pos` of icu_cmp.c (the dispatcher; every mode is
handled, the model S_FX_EFX/NCOB/ECOB variants included). -/
def map_to_pos (cfg : CmpCfg) (m : CmpMem) : Int × CmpMem :=
  if cfg.samples = 0 then (0, m)
  else if cfg.input_buf = 0 then (-1, m)
  else
    let zero := zero_escape_mech_is_used cfg.cmp_mode
    match cfg.cmp_mode with
    | MODE_RAW | MODE_RAW_S_FX => (0, m)
    | MODE_MODEL_ZERO | MODE_MODEL_MULTI | MODE_DIFF_ZERO | MODE_DIFF_MULTI =>
      (0, { m with input := .u16 (map_to_pos_16 m.input.as16 cfg.samples zero) })
    | MODE_MODEL_ZERO_S_FX | MODE_MODEL_MULTI_S_FX
    | MODE_DIFF_ZERO_S_FX | MODE_DIFF_MULTI_S_FX =>
      (0, { m with input := .sfx (map_to_pos_S_FX m.input.asSFX cfg.samples zero) })
    | MODE_MODEL_ZERO_S_FX_EFX | MODE_MODEL_MULTI_S_FX_EFX
    | MODE_DIFF_ZERO_S_FX_EFX | MODE_DIFF_MULTI_S_FX_EFX =>
      (0, { m with input := .sfxefx (map_to_pos_S_FX_EFX m.input.asSFXEFX cfg.samples zero) })
    | MODE_MODEL_ZERO_S_FX_NCOB | MODE_MODEL_MULTI_S_FX_NCOB
    | MODE_DIFF_ZERO_S_FX_NCOB | MODE_DIFF_MULTI_S_FX_NCOB =>
      (0, { m with input := .sfxncob (map_to_pos_S_FX_NCOB m.input.asSFXNCOB cfg.samples zero) })
    | MODE_MODEL_ZERO_S_FX_EFX_NCOB_ECOB | MODE_MODEL_MULTI_S_FX_EFX_NCOB_ECOB
    | MODE_DIFF_ZERO_S_FX_EFX_NCOB_ECOB | MODE_DIFF_MULTI_S_FX_EFX_NCOB_ECOB =>
      (0, { m with input := .sfxecob
                     (map_to_pos_S_FX_EFX_NCOB_ECOB m.input.asSFXECOB cfg.samples zero) })
    | MODE_MODEL_ZERO_32 | MODE_MODEL_MULTI_32 | MODE_DIFF_ZERO_32 | MODE_DIFF_MULTI_32
    | MODE_MODEL_ZERO_F_FX | MODE_MODEL_MULTI_F_FX
    | MODE_DIFF_ZERO_F_FX | MODE_DIFF_MULTI_F_FX =>
      (0, { m with input := .u32 (map_to_pos_32 m.input.as32 cfg.samples zero) })

/-- The loop body of `encode_16` of icu_cmp.c. -/
def encode_16_loop (cfg : CmpCfg) : List Nat → encoder_struct → List Nat →
    Int × encoder_struct × List Nat
  | [], enc, out => (0, enc, out)
  | v :: rest, enc, out =>
    let r := encode_value v 16 cfg enc out
    if r.1 ≠ 0 then r else encode_16_loop cfg rest r.2.1 r.2.2

/-- The function `encode_16` of icu_cmp.c. -/
def encode_16 (data_to_encode : List Nat) (cfg : CmpCfg) (enc : encoder_struct)
    (out : List Nat) : Int × encoder_struct × List Nat :=
  if cfg.samples = 0 then (0, enc, out)
  else encode_16_loop cfg (data_to_encode.take cfg.samples) enc out

/-- The loop body of `encode_32` of icu_cmp.c. -/
def encode_32_loop (cfg : CmpCfg) : List Nat → encoder_struct → List Nat →
    Int × encoder_struct × List Nat
  | [], enc, out => (0, enc, out)
  | v :: rest, enc, out =>
    let r := encode_value v 32 cfg enc out
    if r.1 ≠ 0 then r else encode_32_loop cfg rest r.2.1 r.2.2

/-- The function `encode_32` of icu_cmp.c (no guards in the source). -/
def encode_32 (data_to_encode : List Nat) (cfg : CmpCfg) (enc : encoder_struct)
    (out : List Nat) : Int × encoder_struct × List Nat :=
  encode_32_loop cfg (data_to_encode.take cfg.samples) enc out

/-- The loop body of `encode_S_FX` of icu_cmp.c.  The source keeps a
secondary configuration/encoder state (`cfg_exp_flag`, `enc_exp_flag`)
for the exposure-flags field and stitches the bit counts between the two
states; the exposure flags go through `encode_normal` (the `encode_value`
call is commented out in the source), the flux through `encode_value`. -/
def encode_S_FX_loop (cfg cfgE : CmpCfg) : List S_FX → encoder_struct → encoder_struct →
    List Nat → Int × encoder_struct × List Nat
  | [], enc, _, out => (0, enc, out)
  | s :: rest, enc, encE, out =>
    let r1 := encode_normal s.EXPOSURE_FLAGS cfgE encE out
    if r1.1 ≠ 0 then (r1.1, enc, r1.2.2)
    else
      let enc1 := { enc with cmp_size := r1.2.1.cmp_size
                             log2_golomb_par := ilog_2 cfg.golomb_par }
      let r2 := encode_value s.FX 32 cfg enc1 r1.2.2
      if r2.1 ≠ 0 then r2
      else encode_S_FX_loop cfg cfgE rest r2.2.1 { r1.2.1 with cmp_size := r2.2.1.cmp_size } r2.2.2

/-- The function `encode_S_FX` of icu_cmp.c (the static outlier counter
of the source only feeds commented-out debug prints and is omitted). -/
def encode_S_FX (data : List S_FX) (cfg : CmpCfg) (enc : encoder_struct)
    (out : List Nat) : Int × encoder_struct × List Nat :=
  let cfgE := { cfg with golomb_par := GOLOMB_PAR_EXPOSURE_FLAGS }
  let encE := { enc with log2_golomb_par := ilog_2 GOLOMB_PAR_EXPOSURE_FLAGS }
  encode_S_FX_loop cfg cfgE (data.take cfg.samples) enc encE out

/-- The loop body of `encode_S_FX_EFX` of icu_cmp.c: every field,
exposure flags included, goes through `encode_value` with the caller
configuration. -/
def encode_S_FX_EFX_loop (cfg : CmpCfg) : List S_FX_EFX → encoder_struct → List Nat →
    Int × encoder_struct × List Nat
  | [], enc, out => (0, enc, out)
  | s :: rest, enc, out =>
    let r1 := encode_value s.EXPOSURE_FLAGS 8 cfg enc out
    if r1.1 ≠ 0 then r1
    else
      let r2 := encode_value s.FX 32 cfg r1.2.1 r1.2.2
      if r2.1 ≠ 0 then r2
      else
        let r3 := encode_value s.EFX 32 cfg r2.2.1 r2.2.2
        if r3.1 ≠ 0 then r3
        else encode_S_FX_EFX_loop cfg rest r3.2.1 r3.2.2

/-- The function `encode_S_FX_EFX` of icu_cmp.c. -/
def encode_S_FX_EFX (data : List S_FX_EFX) (cfg : CmpCfg) (enc : encoder_struct)
    (out : List Nat) : Int × encoder_struct × List Nat :=
  encode_S_FX_EFX_loop cfg (data.take cfg.samples) enc out

/-- The loop body of `encode_S_FX_NCOB` of icu_cmp.c. -/
def encode_S_FX_NCOB_loop (cfg : CmpCfg) : List S_FX_NCOB → encoder_struct → List Nat →
    Int × encoder_struct × List Nat
  | [], enc, out => (0, enc, out)
  | s :: rest, enc, out =>
    let r1 := encode_value s.EXPOSURE_FLAGS 8 cfg enc out
    if r1.1 ≠ 0 then r1
    else
      let r2 := encode_value s.FX 32 cfg r1.2.1 r1.2.2
      if r2.1 ≠ 0 then r2
      else
        let r3 := encode_value s.NCOB_X 32 cfg r2.2.1 r2.2.2
        if r3.1 ≠ 0 then r3
        else
          let r4 := encode_value s.NCOB_Y 32 cfg r3.2.1 r3.2.2
          if r4.1 ≠ 0 then r4
          else encode_S_FX_NCOB_loop cfg rest r4.2.1 r4.2.2

/-- The function `encode_S_FX_NCOB` of icu_cmp.c. -/
def encode_S_FX_NCOB (data : List S_FX_NCOB) (cfg : CmpCfg) (enc : encoder_struct)
    (out : List Nat) : Int × encoder_struct × List Nat :=
  encode_S_FX_NCOB_loop cfg (data.take cfg.samples) enc out

/-- The loop body of `encode_S_FX_EFX_NCOB_ECOB` of icu_cmp.c. -/
def encode_S_FX_EFX_NCOB_ECOB_loop (cfg : CmpCfg) :
    List S_FX_EFX_NCOB_ECOB → encoder_struct → List Nat →
    Int × encoder_struct × List Nat
  | [], enc, out => (0, enc, out)
  | s :: rest, enc, out =>
    let r1 := encode_value s.EXPOSURE_FLAGS 8 cfg enc out
    if r1.1 ≠ 0 then r1
    else
      let r2 := encode_value s.FX 32 cfg r1.2.1 r1.2.2
      if r2.1 ≠ 0 then r2
      else
        let r3 := encode_value s.NCOB_X 32 cfg r2.2.1 r2.2.2
        if r3.1 ≠ 0 then r3
        else
          let r4 := encode_value s.NCOB_Y 32 cfg r3.2.1 r3.2.2
          if r4.1 ≠ 0 then r4
          else
            let r5 := encode_value s.EFX 32 cfg r4.2.1 r4.2.2
            if r5.1 ≠ 0 then r5
            else
              let r6 := encode_value s.ECOB_X 32 cfg r5.2.1 r5.2.2
              if r6.1 ≠ 0 then r6
              else
                let r7 := encode_value s.ECOB_Y 32 cfg r6.2.1 r6.2.2
                if r7.1 ≠ 0 then r7
                else encode_S_FX_EFX_NCOB_ECOB_loop cfg rest r7.2.1 r7.2.2

/-- The function `encode_S_FX_EFX_NCOB_ECOB` of icu_cmp.c. -/
def encode_S_FX_EFX_NCOB_ECOB (data : List S_FX_EFX_NCOB_ECOB) (cfg : CmpCfg)
    (enc : encoder_struct) (out : List Nat) : Int × encoder_struct × List Nat :=
  encode_S_FX_EFX_NCOB_ECOB_loop cfg (data.take cfg.samples) enc out

/-- Big-endian bytes of a 16-bit value (raw-mode serialization). -/
def be16 (v : Nat) : List Nat := [v / 256 % 256, v % 256]

/-- Big-endian bytes of a 32-bit value. -/
def be32 (v : Nat) : List Nat :=
  [v / 16777216 % 256, v / 65536 % 256, v / 256 % 256, v % 256]

/-- Modelled from the spec: the in-memory bytes of one S_FX record after
the raw-mode byte-order normalization (exposure byte, then FX
big-endian). -/
def sfxBytes (s : S_FX) : List Nat := s.EXPOSURE_FLAGS % 256 :: be32 s.FX

/-- The bytes the raw-mode memcpy (plus byte-order pass) produces. -/
def rawBytes (cfg : CmpCfg) (m : CmpMem) : List Nat :=
  match cfg.cmp_mode with
  | MODE_RAW => ((m.input.as16.take cfg.samples).map be16).flatten
  | MODE_RAW_S_FX => ((m.input.asSFX.take cfg.samples).map sfxBytes).flatten
  | _ => []

/-- The function `encode_raw` of icu_cmp.c: set `cmp_size` to the raw bit
size, then fail with `-1` (not the small-buffer sentinel) if the copy
does not fit, else memcpy the samples. -/
def encode_raw (cfg : CmpCfg) (m : CmpMem) (enc : encoder_struct) :
    Int × encoder_struct × CmpMem :=
  if cfg.icu_output_buf = 0 then (-1, enc, m)
  else if cfg.input_buf = 0 then (-1, enc, m)
  else
    let cmp_size_in_bytes := cfg.samples * size_of_a_sample cfg.cmp_mode
    let enc1 := { enc with cmp_size := cmp_size_in_bytes * 8 }
    if cmp_size_in_bytes > cfg.buffer_length * 2 then (-1, enc1, m)
    else (0, enc1, { m with outputRaw := rawBytes cfg m ++ m.outputRaw.drop cmp_size_in_bytes })

/-- The function `encode_raw_16` of icu_cmp.c (`cpu_to_be16s` is the
identity in the big-endian build we model). -/
def encode_raw_16 (cfg : CmpCfg) (m : CmpMem) (enc : encoder_struct) :
    Int × encoder_struct × CmpMem :=
  encode_raw cfg m enc

/-- The function `encode_raw_S_FX` of icu_cmp.c (`cpu_to_be32` likewise). -/
def encode_raw_S_FX (cfg : CmpCfg) (m : CmpMem) (enc : encoder_struct) :
    Int × encoder_struct × CmpMem :=
  encode_raw cfg m enc

/-- The mode dispatch inside `encode_data` of icu_cmp.c. -/
def encode_data_dispatch (cfg : CmpCfg) (m : CmpMem) (enc0 : encoder_struct) :
    Int × encoder_struct × CmpMem :=
  match cfg.cmp_mode with
  | MODE_RAW => encode_raw_16 cfg m enc0
  | MODE_RAW_S_FX => encode_raw_S_FX cfg m enc0
  | MODE_MODEL_ZERO | MODE_MODEL_MULTI | MODE_DIFF_ZERO | MODE_DIFF_MULTI =>
    let r := encode_16 m.input.as16 cfg enc0 m.outputWords
    (r.1, r.2.1, { m with outputWords := r.2.2 })
  | MODE_MODEL_ZERO_S_FX | MODE_MODEL_MULTI_S_FX
  | MODE_DIFF_ZERO_S_FX | MODE_DIFF_MULTI_S_FX =>
    let r := encode_S_FX m.input.asSFX cfg enc0 m.outputWords
    (r.1, r.2.1, { m with outputWords := r.2.2 })
  | MODE_MODEL_ZERO_S_FX_EFX | MODE_MODEL_MULTI_S_FX_EFX
  | MODE_DIFF_ZERO_S_FX_EFX | MODE_DIFF_MULTI_S_FX_EFX =>
    let r := encode_S_FX_EFX m.input.asSFXEFX cfg enc0 m.outputWords
    (r.1, r.2.1, { m with outputWords := r.2.2 })
  | MODE_MODEL_ZERO_S_FX_NCOB | MODE_MODEL_MULTI_S_FX_NCOB
  | MODE_DIFF_ZERO_S_FX_NCOB | MODE_DIFF_MULTI_S_FX_NCOB =>
    let r := encode_S_FX_NCOB m.input.asSFXNCOB cfg enc0 m.outputWords
    (r.1, r.2.1, { m with outputWords := r.2.2 })
  | MODE_MODEL_ZERO_S_FX_EFX_NCOB_ECOB | MODE_MODEL_MULTI_S_FX_EFX_NCOB_ECOB
  | MODE_DIFF_ZERO_S_FX_EFX_NCOB_ECOB | MODE_DIFF_MULTI_S_FX_EFX_NCOB_ECOB =>
    let r := encode_S_FX_EFX_NCOB_ECOB m.input.asSFXECOB cfg enc0 m.outputWords
    (r.1, r.2.1, { m with outputWords := r.2.2 })
  | MODE_MODEL_ZERO_32 | MODE_MODEL_MULTI_32 | MODE_DIFF_ZERO_32 | MODE_DIFF_MULTI_32
  | MODE_MODEL_ZERO_F_FX | MODE_MODEL_MULTI_F_FX
  | MODE_DIFF_ZERO_F_FX | MODE_DIFF_MULTI_F_FX =>
    let r := encode_32 m.input.as32 cfg enc0 m.outputWords
    (r.1, r.2.1, { m with outputWords := r.2.2 })

/-- The function `encode_data` of icu_cmp.c.  Only the `-2` status of the
dispatch is inspected; any other non-zero status is silently dropped and
the function continues (this mirrors the source).  Tail padding runs for
non-raw modes with a non-empty bitstream; the final little-endian word
swap of the source compiles out in the big-endian build we model. -/
def encode_data (cfg : CmpCfg) (m : CmpMem) (info : Option cmp_info) :
    Int × CmpMem × Option cmp_info :=
  let enc0 : encoder_struct :=
    { encoder := select_encoder cfg.golomb_par
      log2_golomb_par := ilog_2 cfg.golomb_par
      cmp_size := 0 }
  let step := encode_data_dispatch cfg m enc0
  let err := step.1
  let enc := step.2.1
  let m1 := step.2.2
  if err = -2 then
    (-2, m1, info.map (fun i => { i with cmp_err := i.cmp_err.lor (1 <<< SMALL_BUFFER_ERR_BIT) }))
  else
    let info1 := info.map (fun i => { i with cmp_size := enc.cmp_size })
    if raw_mode_is_used cfg.cmp_mode = false ∧ enc.cmp_size ≠ 0 then
      let n_pad := 32 - enc.cmp_size % 32
      if n_pad < 32 then
        let p := put_n_bits32 0 enc.cmp_size n_pad m1.outputWords cfg.buffer_length
        if p.1 ≤ 0 then
          (-2, m1,
           info1.map (fun i =>
             { i with cmp_err := i.cmp_err.lor (1 <<< SMALL_BUFFER_ERR_BIT), cmp_size := 0 }))
        else (0, { m1 with outputWords := p.2 }, info1)
      else (0, m1, info1)
    else (0, m1, info1)

/-- The function `icu_compress_data` of icu_cmp.c: the four-stage
pipeline with short-circuit on every non-zero status. -/
def icu_compress_data (cfg : CmpCfg) (m : CmpMem) (info : Option cmp_info) :
    Int × CmpMem × Option cmp_info :=
  let s := set_info cfg info
  if s.1 ≠ 0 then (s.1, m, s.2)
  else
    let v := icu_cmp_cfg_valid cfg s.2
    if v.1 ≠ 0 then (v.1, m, v.2)
    else
      let p := pre_process cfg m
      if p.1 ≠ 0 then (p.1, p.2, v.2)
      else
        let mp := map_to_pos cfg p.2
        if mp.1 ≠ 0 then (mp.1, mp.2, v.2)
        else
          let e := encode_data cfg mp.2 v.2
          (e.1, e.2.1, e.2.2)

/-- Claim-side rendering of the 16-row escape-offset step table of C4
(thresholds written as powers of four, exactly the rows listed in the
claim). -/
def specMultiOffset (d : Nat) : Nat :=
  if d ≤ 4 ^ 1 - 1 then 0
  else if d ≤ 4 ^ 2 - 1 then 1
  else if d ≤ 4 ^ 3 - 1 then 2
  else if d ≤ 4 ^ 4 - 1 then 3
  else if d ≤ 4 ^ 5 - 1 then 4
  else if d ≤ 4 ^ 6 - 1 then 5
  else if d ≤ 4 ^ 7 - 1 then 6
  else if d ≤ 4 ^ 8 - 1 then 7
  else if d ≤ 4 ^ 9 - 1 then 8
  else if d ≤ 4 ^ 10 - 1 then 9
  else if d ≤ 4 ^ 11 - 1 then 10
  else if d ≤ 4 ^ 12 - 1 then 11
  else if d ≤ 4 ^ 13 - 1 then 12
  else if d ≤ 4 ^ 14 - 1 then 13
  else if d ≤ 4 ^ 15 - 1 then 14
  else 15

/-- Claim-side rendering of the C5 Golomb description taken literally:
cutoff computed from the ceiling logarithm, group 0 in `log2_m + 1` bits,
otherwise the unary group index (g ones and a zero) followed by the
suffix `c*2 + (u - c) - g*m`. -/
def claimedGolombEncoder (value m : Nat) : Nat × Nat :=
  let log2_m := ilog_2 m
  let clog2_m := if m ≤ 1 then 0 else ilog_2 (m - 1) + 1
  let c0 := 2 ^ (clog2_m + 1) - m
  let c := if c0 = 0 then m else c0
  if value < c then (log2_m + 1, value)
  else
    let g := (value - c) / m
    ((g + 1) + (log2_m + 1),
     (2 ^ (g + 1) - 2) * 2 ^ (log2_m + 1) + (c * 2 + (value - c) - g * m))

/-- Spec-side rendering of the amended C5 description: as
`claimedGolombEncoder` but with the cutoff `2^(log2_m+1) - m` computed
from the floor logarithm `log2_m = ilog_2 m`, which is what the caller
passes to the encoder. -/
def specGolombFloor (value m : Nat) : Nat × Nat :=
  let log2_m := ilog_2 m
  let c0 := 2 ^ (log2_m + 1) - m
  let c := if c0 = 0 then m else c0
  if value < c then (log2_m + 1, value)
  else
    let g := (value - c) / m
    ((g + 1) + (log2_m + 1),
     (2 ^ (g + 1) - 2) * 2 ^ (log2_m + 1) + (c * 2 + (value - c) - g * m))

/-- Claim-side generic field-list encoder: every listed (value, bit length)
pair goes through `encode_value` with the caller configuration. -/
def encode_fields (cfg : CmpCfg) : List (Nat × Nat) → encoder_struct → List Nat →
    Int × encoder_struct × List Nat
  | [], enc, out => (0, enc, out)
  | f :: rest, enc, out =>
    let r := encode_value f.1 f.2 cfg enc out
    if r.1 ≠ 0 then r else encode_fields cfg rest r.2.1 r.2.2

/-- Claim-side description of S_FX encoding with a single encoder state:
the exposure flags through a plain codeword with the fixed parameter
`GOLOMB_PAR_EXPOSURE_FLAGS`, the flux through `encode_value` with the
configured parameter. -/
def claimedFixed_S_FX (cfg : CmpCfg) : List S_FX → encoder_struct → List Nat →
    Int × encoder_struct × List Nat
  | [], enc, out => (0, enc, out)
  | s :: rest, enc, out =>
    let r1 := encode_normal s.EXPOSURE_FLAGS
                { cfg with golomb_par := GOLOMB_PAR_EXPOSURE_FLAGS }
                { enc with log2_golomb_par := ilog_2 GOLOMB_PAR_EXPOSURE_FLAGS } out
    if r1.1 ≠ 0 then (r1.1, enc, r1.2.2)
    else
      let r2 := encode_value s.FX 32 cfg
                  { r1.2.1 with log2_golomb_par := ilog_2 cfg.golomb_par } r1.2.2
      if r2.1 ≠ 0 then r2
      else claimedFixed_S_FX cfg rest r2.2.1 r2.2.2

/-- Claim-side description of S_FX_EFX encoding as claim C1 states it:
the exposure flags with the fixed parameter `GOLOMB_PAR_EXPOSURE_FLAGS`,
all other fields with the configured parameter. -/
def claimedFixed_S_FX_EFX (cfg : CmpCfg) : List S_FX_EFX → encoder_struct → List Nat →
    Int × encoder_struct × List Nat
  | [], enc, out => (0, enc, out)
  | s :: rest, enc, out =>
    let r1 := encode_value s.EXPOSURE_FLAGS 8
                { cfg with golomb_par := GOLOMB_PAR_EXPOSURE_FLAGS }
                { enc with log2_golomb_par := ilog_2 GOLOMB_PAR_EXPOSURE_FLAGS } out
    if r1.1 ≠ 0 then (r1.1, enc, r1.2.2)
    else
      let r := encode_fields cfg [(s.FX, 32), (s.EFX, 32)]
                 { r1.2.1 with log2_golomb_par := ilog_2 cfg.golomb_par } r1.2.2
      if r.1 ≠ 0 then r else claimedFixed_S_FX_EFX cfg rest r.2.1 r.2.2

/-- Claim-side description of S_FX_EFX encoding with the configured
parameter for every field (the amended claim C1 for this shape). -/
def claimedUniform_S_FX_EFX (cfg : CmpCfg) : List S_FX_EFX → encoder_struct → List Nat →
    Int × encoder_struct × List Nat
  | [], enc, out => (0, enc, out)
  | s :: rest, enc, out =>
    let r := encode_fields cfg [(s.EXPOSURE_FLAGS, 8), (s.FX, 32), (s.EFX, 32)] enc out
    if r.1 ≠ 0 then r else claimedUniform_S_FX_EFX cfg rest r.2.1 r.2.2

/-- Claim-side description of S_FX_NCOB encoding with the configured
parameter for every field. -/
def claimedUniform_S_FX_NCOB (cfg : CmpCfg) : List S_FX_NCOB → encoder_struct → List Nat →
    Int × encoder_struct × List Nat
  | [], enc, out => (0, enc, out)
  | s :: rest, enc, out =>
    let r := encode_fields cfg
               [(s.EXPOSURE_FLAGS, 8), (s.FX, 32), (s.NCOB_X, 32), (s.NCOB_Y, 32)] enc out
    if r.1 ≠ 0 then r else claimedUniform_S_FX_NCOB cfg rest r.2.1 r.2.2

/-- Claim-side description of S_FX_EFX_NCOB_ECOB encoding with the
configured parameter for every field. -/
def claimedUniform_S_FX_EFX_NCOB_ECOB (cfg : CmpCfg) :
    List S_FX_EFX_NCOB_ECOB → encoder_struct → List Nat →
    Int × encoder_struct × List Nat
  | [], enc, out => (0, enc, out)
  | s :: rest, enc, out =>
    let r := encode_fields cfg
               [(s.EXPOSURE_FLAGS, 8), (s.FX, 32), (s.NCOB_X, 32), (s.NCOB_Y, 32),
                (s.EFX, 32), (s.ECOB_X, 32), (s.ECOB_Y, 32)] enc out
    if r.1 ≠ 0 then r else claimedUniform_S_FX_EFX_NCOB_ECOB cfg rest r.2.1 r.2.2

/-- Claim-side acceptance condition for a zero-sample configuration:
every validator check that does not mention `samples`. -/
def acceptNoSamples (cfg : CmpCfg) : Prop :=
  cfg.input_buf ≠ 0 ∧ cfg.icu_output_buf ≠ 0 ∧ cfg.icu_output_buf ≠ cfg.input_buf ∧
  (model_mode_is_used cfg.cmp_mode = true →
    cfg.model_buf ≠ 0 ∧ cfg.model_buf ≠ cfg.input_buf ∧
    cfg.model_buf ≠ cfg.icu_output_buf ∧
    cfg.icu_new_model_buf ≠ cfg.input_buf ∧
    cfg.icu_new_model_buf ≠ cfg.icu_output_buf) ∧
  (diff_mode_is_used cfg.cmp_mode || model_mode_is_used cfg.cmp_mode ||
    raw_mode_is_used cfg.cmp_mode) = true ∧
  (raw_mode_is_used cfg.cmp_mode = false →
    (model_mode_is_used cfg.cmp_mode = true → cfg.model_value ≤ MAX_MODEL_VALUE) ∧
    MIN_ICU_GOLOMB_PAR ≤ cfg.golomb_par ∧ cfg.golomb_par ≤ MAX_ICU_GOLOMB_PAR ∧
    MIN_ICU_SPILL ≤ cfg.spill ∧ cfg.spill ≤ get_max_spill cfg.golomb_par cfg.cmp_mode ∧
    cfg.round ≤ MAX_ICU_ROUND)

/-- An all-zero info record used as the caller-provided result storage in
the concrete scenarios below. -/
def infoZero : cmp_info :=
  { cmp_err := 0, cmp_mode_used := MODE_RAW, model_value_used := 0, round_used := 0
    spill_used := 0, golomb_par_used := 0, samples_used := 0, cmp_size := 0
    ap1_cmp_size := 0, ap2_cmp_size := 0, rdcu_new_model_adr_used := 0
    rdcu_cmp_adr_used := 0 }

/-- A raw S_FX configuration the validator accepts although the raw copy
(5 bytes, 40 bits) exceeds the output capacity of one 16-bit word. -/
def cfgRawSFX : CmpCfg :=
  { cmp_mode := MODE_RAW_S_FX, golomb_par := 4, spill := 4, model_value := 0, round := 0
    samples := 1, buffer_length := 1, input_buf := 1, icu_output_buf := 2
    model_buf := 0, icu_new_model_buf := 0, rdcu_new_model_adr := 0, rdcu_buffer_adr := 0 }

/-- Caller storage for the `cfgRawSFX` scenario. -/
def memRawSFX : CmpMem :=
  { input := .sfx [{ EXPOSURE_FLAGS := 1, FX := 2 }], model := .u16 [], newModel := .u16 []
    outputWords := [0], outputRaw := [0, 0, 0, 0] }

/-- A multi-escape S_FX_EFX configuration with one all-zero sample, used
to separate the source encoder from the claimed fixed-parameter one. -/
def cfgEfxC1 : CmpCfg :=
  { cmp_mode := MODE_DIFF_MULTI_S_FX_EFX, golomb_par := 4, spill := 8, model_value := 0
    round := 0, samples := 1, buffer_length := 8, input_buf := 1, icu_output_buf := 2
    model_buf := 0, icu_new_model_buf := 0, rdcu_new_model_adr := 0, rdcu_buffer_adr := 0 }

/-- The encoder state `encode_data` would hand to the S_FX_EFX encoder
under `cfgEfxC1`. -/
def encEfxC1 : encoder_struct :=
  { encoder := select_encoder 4, log2_golomb_par := ilog_2 4, cmp_size := 0 }

/-- A 16-bit differential configuration with `samples = 0` that the
validator accepts while `model_value` does not fit in `uint8_t`. -/
def cfgMv256 : CmpCfg :=
  { cmp_mode := MODE_DIFF_ZERO, golomb_par := 4, spill := 4, model_value := 256, round := 0
    samples := 0, buffer_length := 5, input_buf := 1, icu_output_buf := 2
    model_buf := 0, icu_new_model_buf := 0, rdcu_new_model_adr := 0, rdcu_buffer_adr := 0 }

/-- A raw configuration with `samples = 0` that the validator accepts
(raw modes skip the round check) while `round` does not fit in `uint8_t`. -/
def cfgRound300 : CmpCfg :=
  { cmp_mode := MODE_RAW, golomb_par := 4, spill := 4, model_value := 0, round := 300
    samples := 0, buffer_length := 5, input_buf := 1, icu_output_buf := 2
    model_buf := 0, icu_new_model_buf := 0, rdcu_new_model_adr := 0, rdcu_buffer_adr := 0 }

/-- Caller storage with empty 16-bit buffers for the zero-sample scenarios. -/
def memEmpty16 : CmpMem :=
  { input := .u16 [], model := .u16 [], newModel := .u16 []
    outputWords := [0, 0, 0], outputRaw := [0, 0, 0, 0, 0, 0] }

/-- A valid zero-sample configuration whose parameters also fit the
info record (`cfgMv256` with an in-range model_value). -/
def cfgNoSamples : CmpCfg := { cfgMv256 with model_value := 0 }

/-- A 32-bit model configuration with a separate updated-model pointer. -/
def cfgModel32 : CmpCfg :=
  { cmp_mode := CmpMode.MODE_MODEL_ZERO_32, golomb_par := 4, spill := 4, model_value := 8
    round := 0, samples := 1, buffer_length := 4, input_buf := 1, icu_output_buf := 2
    model_buf := 3, icu_new_model_buf := 7, rdcu_new_model_adr := 0, rdcu_buffer_adr := 0 }

/-- Caller storage for the `cfgModel32` scenario. -/
def memModel32 : CmpMem :=
  { input := .u32 [5], model := .u32 [9], newModel := .u32 [0]
    outputWords := [0, 0], outputRaw := [] }

/-- The `cfgModel32` scenario moved to the 16-bit model mode. -/
def cfgModel16 : CmpCfg := { cfgModel32 with cmp_mode := CmpMode.MODE_MODEL_ZERO }

/-- Caller storage for the `cfgModel16` scenario. -/
def memModel16 : CmpMem :=
  { input := .u16 [5], model := .u16 [9], newModel := .u16 [0]
    outputWords := [0, 0], outputRaw := [] }

/-- The `cfgModel32` scenario moved to the S_FX model mode. -/
def cfgModelSFX : CmpCfg := { cfgModel32 with cmp_mode := CmpMode.MODE_MODEL_ZERO_S_FX }

/-- Caller storage for the `cfgModelSFX` scenario. -/
def memModelSFX : CmpMem :=
  { input := .sfx [{ EXPOSURE_FLAGS := 1, FX := 6 }]
    model := .sfx [{ EXPOSURE_FLAGS := 0, FX := 3 }]
    newModel := .sfx [{ EXPOSURE_FLAGS := 0, FX := 0 }]
    outputWords := [0, 0], outputRaw := [] }

/-! Helper lemmas. -/

theorem bool01_eq_zero {P : Prop} [Decidable P] : bool01 P = 0 ↔ ¬P := by
  unfold bool01; split_ifs with h <;> simp [h]

theorem bool01_of_not {P : Prop} [Decidable P] (h : ¬P) : bool01 P = 0 := by
  simp [bool01, h]

theorem put_n_bits32_over {value bitOffset nBits : Nat} {dst : List Nat} {dest_len : Nat}
    (h : bitOffset + nBits > ((dest_len + 1) / 2) * 2 * 16) :
    put_n_bits32 value bitOffset nBits dst dest_len = (-2, dst) := by
  unfold put_n_bits32; rw [if_pos h]

theorem put_n_bits32_noop {value bitOffset nBits : Nat} {dst : List Nat} {dest_len : Nat}
    (hc : bitOffset + nBits ≤ ((dest_len + 1) / 2) * 2 * 16)
    (h : nBits = 0 ∨ 32 < nBits) :
    put_n_bits32 value bitOffset nBits dst dest_len = (0, dst) := by
  unfold put_n_bits32
  rcases h with h | h
  · rw [if_neg (by omega), if_pos h]
  · rw [if_neg (by omega), if_neg (by omega), if_pos h]

theorem put_n_bits32_fst_ok {value bitOffset nBits : Nat} {dst : List Nat} {dest_len : Nat}
    (hc : bitOffset + nBits ≤ ((dest_len + 1) / 2) * 2 * 16)
    (h1 : 1 ≤ nBits) (h2 : nBits ≤ 32) :
    (put_n_bits32 value bitOffset nBits dst dest_len).1 = (nBits : Int) := by
  simp only [put_n_bits32]
  split_ifs <;> first | rfl | omega

theorem put_n_bits32_small_or_n (value bitOffset nBits : Nat) (dst : List Nat)
    (dest_len : Nat) (h1 : 1 ≤ nBits) (h2 : nBits ≤ 32) :
    (put_n_bits32 value bitOffset nBits dst dest_len).1 = -2 ∨
    (put_n_bits32 value bitOffset nBits dst dest_len).1 = (nBits : Int) := by
  by_cases hc : bitOffset + nBits > ((dest_len + 1) / 2) * 2 * 16
  · left; rw [put_n_bits32_over hc]
  · right; exact put_n_bits32_fst_ok (by omega) h1 h2

theorem cal_multi_offset_le (d : Nat) : cal_multi_offset d ≤ 15 := by
  unfold cal_multi_offset
  by_cases h1 : d ≤ 0x3
  · rw [if_pos h1]; omega
  · rw [if_neg h1]
    by_cases h2 : d ≤ 0xF
    · rw [if_pos h2]; omega
    · rw [if_neg h2]
      by_cases h3 : d ≤ 0x3F
      · rw [if_pos h3]; omega
      · rw [if_neg h3]
        by_cases h4 : d ≤ 0xFF
        · rw [if_pos h4]; omega
        · rw [if_neg h4]
          by_cases h5 : d ≤ 0x3FF
          · rw [if_pos h5]; omega
          · rw [if_neg h5]
            by_cases h6 : d ≤ 0xFFF
            · rw [if_pos h6]; omega
            · rw [if_neg h6]
              by_cases h7 : d ≤ 0x3FFF
              · rw [if_pos h7]; omega
              · rw [if_neg h7]
                by_cases h8 : d ≤ 0xFFFF
                · rw [if_pos h8]; omega
                · rw [if_neg h8]
                  by_cases h9 : d ≤ 0x3FFFF
                  · rw [if_pos h9]; omega
                  · rw [if_neg h9]
                    by_cases h10 : d ≤ 0xFFFFF
                    · rw [if_pos h10]; omega
                    · rw [if_neg h10]
                      by_cases h11 : d ≤ 0x3FFFFF
                      · rw [if_pos h11]; omega
                      · rw [if_neg h11]
                        by_cases h12 : d ≤ 0xFFFFFF
                        · rw [if_pos h12]; omega
                        · rw [if_neg h12]
                          by_cases h13 : d ≤ 0x3FFFFFF
                          · rw [if_pos h13]; omega
                          · rw [if_neg h13]
                            by_cases h14 : d ≤ 0xFFFFFFF
                            · rw [if_pos h14]; omega
                            · rw [if_neg h14]
                              by_cases h15 : d ≤ 0x3FFFFFFF
                              · rw [if_pos h15]; omega
                              · rw [if_neg h15]

theorem cal_multi_offset_eq_spec (d : Nat) : cal_multi_offset d = specMultiOffset d := rfl

/-! Claim C6. -/

/-- Claim C6, counterexample: with `dst_words_16 = 2` the capacity is 32
bits; at `bit_offset = 33` and `n = 0` the claim demands the return value
0 (the `n == 0` no-op case), but the source checks the capacity first and
returns the small-buffer sentinel `-2`. -/
theorem C6_counterexample :
    (put_n_bits32 0 33 0 [] 2).1 = -2 ∧ ¬((put_n_bits32 0 33 0 [] 2).1 = 0) := by
  decide

/-- Claim C6 (amended): `put_n_bits32(value, bit_offset, n, dst,
dst_words_16)` returns the small-buffer sentinel `-2`, writing nothing,
exactly when `bit_offset + n` exceeds the capacity
`ceil(dst_words_16/2)*2*16`; within capacity it returns 0 and writes
nothing when `n == 0` or `n > 32`, and returns `n` on success. -/
theorem C6_put_n_bits32_contract (value bitOffset nBits : Nat) (dst : List Nat)
    (dest_len : Nat) :
    (bitOffset + nBits > ((dest_len + 1) / 2) * 2 * 16 →
      put_n_bits32 value bitOffset nBits dst dest_len = (-2, dst)) ∧
    (bitOffset + nBits ≤ ((dest_len + 1) / 2) * 2 * 16 →
      ((nBits = 0 ∨ 32 < nBits) →
        put_n_bits32 value bitOffset nBits dst dest_len = (0, dst)) ∧
      (1 ≤ nBits → nBits ≤ 32 →
        (put_n_bits32 value bitOffset nBits dst dest_len).1 = (nBits : Int))) := by
  exact ⟨fun h => put_n_bits32_over h,
         fun hc => ⟨fun h => put_n_bits32_noop hc h, fun h1 h2 => put_n_bits32_fst_ok hc h1 h2⟩⟩

/-- Witness for the amended claim C6 at concrete inputs: an overflowing
write returns the sentinel, a 5-bit in-capacity write returns 5, and an
in-capacity `n = 40 > 32` write is a no-op returning 0. -/
theorem C6_put_n_bits32_contract_witness :
    put_n_bits32 7 30 5 [0] 2 = (-2, [0]) ∧
    (put_n_bits32 7 20 5 [0] 2).1 = 5 ∧
    put_n_bits32 7 100 40 [0, 0, 0, 0, 0] 9 = (0, [0, 0, 0, 0, 0]) := by
  refine ⟨?_, ?_, ?_⟩
  · exact (C6_put_n_bits32_contract 7 30 5 [0] 2).1 (by decide)
  · exact (C6_put_n_bits32_contract 7 20 5 [0] 2).2 (by decide) |>.2 (by decide) (by decide)
  · exact ((C6_put_n_bits32_contract 7 100 40 [0, 0, 0, 0, 0] 9).2 (by decide)).1 (by decide)

/-! Claim C10. -/

/-- Claim C10: `cal_multi_offset` always lands in `[0, 15]`, so the raw
outlier payload length `(offset + 1) * 2` is at most 32 and a
`put_n_bits32` call with that length can only succeed (returning the
length) or hit the small-buffer check; the `n > 32` no-op branch is
unreachable from the multi-escape outlier path. -/
theorem C10_cal_multi_offset_bound (d value bitOffset : Nat) (dst : List Nat)
    (dest_len : Nat) :
    cal_multi_offset d ≤ 15 ∧
    (cal_multi_offset d + 1) * 2 ≤ 32 ∧
    ((put_n_bits32 value bitOffset ((cal_multi_offset d + 1) * 2) dst dest_len).1 = -2 ∨
     (put_n_bits32 value bitOffset ((cal_multi_offset d + 1) * 2) dst dest_len).1 =
       (((cal_multi_offset d + 1) * 2 : Nat) : Int)) := by
  have h := cal_multi_offset_le d
  exact ⟨h, by omega,
    put_n_bits32_small_or_n value bitOffset ((cal_multi_offset d + 1) * 2) dst dest_len
      (by omega) (by omega)⟩

/-! Claim C3. -/

theorem getD_set_ne {α : Type} (l : List α) (m n : Nat) (v d : α) (h : m ≠ n) :
    (l.set m v).getD n d = l.getD n d := by
  simp only [List.getD_eq_getD_get?, List.get?_eq_getElem?]
  rw [List.getElem?_set_ne h]

theorem getD_set_self {α : Type} (l : List α) (n : Nat) (v d : α) (h : n < l.length) :
    (l.set n v).getD n d = v := by
  simp only [List.getD_eq_getD_get?, List.get?_eq_getElem?]
  rw [List.getElem?_set_eq_of_lt _ h]
  rfl

theorem getD_map_lt (f : Nat → Nat) (l : List Nat) (j : Nat) (h : j < l.length) :
    (l.map f).getD j 0 = f (l.getD j 0) := by
  rw [List.getD_eq_getElem _ _ (by simpa using h), List.getElem_map,
      List.getD_eq_getElem _ _ h]

theorem diffLoop_length (m : Nat) (a : List Nat) (i : Nat) :
    (diffLoop m a i).length = a.length := by
  induction i generalizing a with
  | zero => rfl
  | succ i ih => rw [diffLoop, ih, List.length_set]

theorem diffLoop_getD_untouched (m : Nat) (a : List Nat) (i j : Nat)
    (h : j = 0 ∨ i < j) : (diffLoop m a i).getD j 0 = a.getD j 0 := by
  induction i generalizing a with
  | zero => rfl
  | succ i ih =>
    rw [diffLoop, ih _ (by omega), getD_set_ne _ _ _ _ _ (by omega)]

theorem diffLoop_getD_eq (m : Nat) (a : List Nat) (i j : Nat)
    (hi : i < a.length) (h1 : 1 ≤ j) (h2 : j ≤ i) :
    (diffLoop m a i).getD j 0 = wsub m (a.getD j 0) (a.getD (j - 1) 0) := by
  induction i generalizing a with
  | zero => omega
  | succ i ih =>
    rw [diffLoop]
    by_cases hj : j = i + 1
    · subst hj
      rw [diffLoop_getD_untouched _ _ _ _ (Or.inr (by omega)),
          getD_set_self _ _ _ _ (by omega)]
      simp
    · rw [ih _ (by rw [List.length_set]; omega) (by omega),
          getD_set_ne _ _ _ _ _ (by omega), getD_set_ne _ _ _ _ _ (by omega)]

theorem wsub_of_lt {m a b : Nat} (ha : a < m) (hb : b < m) :
    wsub m a b = (a + (m - b)) % m := by
  unfold wsub
  rw [Nat.mod_eq_of_lt ha, Nat.mod_eq_of_lt hb]

theorem diff_core (m : Nat) (buf : List Nat) (k : Nat)
    (hlen : 1 ≤ buf.length) (hbound : ∀ x ∈ buf, x < m) :
    (diffLoop m (buf.map (fun v => v >>> k)) (buf.length - 1)).length = buf.length ∧
    (diffLoop m (buf.map (fun v => v >>> k)) (buf.length - 1)).getD 0 0 =
      buf.getD 0 0 >>> k ∧
    ∀ i, 1 ≤ i → i < buf.length →
      (diffLoop m (buf.map (fun v => v >>> k)) (buf.length - 1)).getD i 0 =
        (buf.getD i 0 >>> k + (m - buf.getD (i - 1) 0 >>> k)) % m := by
  have hmap : (buf.map (fun v => v >>> k)).length = buf.length := by simp
  refine ⟨by rw [diffLoop_length, hmap], ?_, ?_⟩
  · rw [diffLoop_getD_untouched _ _ _ _ (Or.inl rfl),
        getD_map_lt _ _ _ (by omega)]
  · intro i hi1 hi2
    have hsr : ∀ v : Nat, v >>> k ≤ v := by
      intro v
      rw [Nat.shiftRight_eq_div_pow]
      exact Nat.div_le_self _ _
    have hb1 : buf.getD i 0 < m := by
      rw [List.getD_eq_getElem _ _ (by omega)]
      exact hbound _ (List.getElem_mem _)
    have hb2 : buf.getD (i - 1) 0 < m := by
      rw [List.getD_eq_getElem _ _ (by omega)]
      exact hbound _ (List.getElem_mem _)
    have hs1 : buf.getD i 0 >>> k < m := lt_of_le_of_lt (hsr _) hb1
    have hs2 : buf.getD (i - 1) 0 >>> k < m := lt_of_le_of_lt (hsr _) hb2
    rw [diffLoop_getD_eq _ _ _ _ (by omega) hi1 (by omega),
        getD_map_lt _ _ _ (by omega), getD_map_lt _ _ _ (by omega),
        wsub_of_lt hs1 hs2]

theorem lossy_rounding_16_full (buf : List Nat) (k : Nat) :
    lossy_rounding_16 buf buf.length k = buf.map (fun v => v >>> k) := by
  simp [lossy_rounding_16, round_fwd]

theorem lossy_rounding_32_full (buf : List Nat) (k : Nat) :
    lossy_rounding_32 buf buf.length k = buf.map (fun v => v >>> k) := by
  simp [lossy_rounding_32, round_fwd]

/-- Claim C3: for a buffer of at least one sample, `diff_16` and `diff_32`
leave `r[0] = x[0] >> k` and, for `i >= 1`,
`r[i] = ((x[i] >> k) - (x[i-1] >> k)) mod 2^w` - each element sees the
rounded but otherwise untransformed predecessor (the loop runs from tail
to head). -/
theorem C3_diff_sees_rounded_predecessor (buf : List Nat) (k : Nat)
    (hlen : 1 ≤ buf.length) :
    ((∀ x ∈ buf, x < M16) →
      ((diff_16 buf buf.length k).2.length = buf.length ∧
       (diff_16 buf buf.length k).2.getD 0 0 = buf.getD 0 0 >>> k ∧
       ∀ i, 1 ≤ i → i < buf.length →
         (diff_16 buf buf.length k).2.getD i 0 =
           (buf.getD i 0 >>> k + (M16 - buf.getD (i - 1) 0 >>> k)) % M16)) ∧
    ((∀ x ∈ buf, x < M32) →
      ((diff_32 buf buf.length k).2.length = buf.length ∧
       (diff_32 buf buf.length k).2.getD 0 0 = buf.getD 0 0 >>> k ∧
       ∀ i, 1 ≤ i → i < buf.length →
         (diff_32 buf buf.length k).2.getD i 0 =
           (buf.getD i 0 >>> k + (M32 - buf.getD (i - 1) 0 >>> k)) % M32)) := by
  constructor
  · intro hbound
    have h16 : diff_16 buf buf.length k =
        ((0 : Int), diffLoop M16 (buf.map (fun v => v >>> k)) (buf.length - 1)) := by
      unfold diff_16
      rw [if_neg (by omega), lossy_rounding_16_full]
    rw [h16]
    exact diff_core M16 buf k hlen hbound
  · intro hbound
    have h32 : diff_32 buf buf.length k =
        ((0 : Int), diffLoop M32 (buf.map (fun v => v >>> k)) (buf.length - 1)) := by
      unfold diff_32
      rw [if_neg (by omega), lossy_rounding_32_full]
    rw [h32]
    exact diff_core M32 buf k hlen hbound

/-- Witness for claim C3 on the concrete scenario of the manual:
diffing [10, 12, 9, 9] losslessly gives [10, 2, -3 mod 2^16, 0]. -/
theorem C3_diff_sees_rounded_predecessor_witness :
    (diff_16 [10, 12, 9, 9] ([10, 12, 9, 9] : List Nat).length 0).2.getD 2 0 =
      (9 >>> 0 + (M16 - 12 >>> 0)) % M16 := by
  exact ((C3_diff_sees_rounded_predecessor [10, 12, 9, 9] 0 (by decide)).1
    (by decide)).2.2 2 (by decide) (by decide)

/-! Claim C7. -/

theorem map_to_pos_alg_left_inverse (m x : Nat) (hm2 : 2 ≤ m) (hme : m % 2 = 0)
    (hx : x < m) :
    map_to_pos_alg m x < m ∧ map_to_pos_inv m (map_to_pos_alg m x) = x := by
  unfold map_to_pos_alg toSigned map_to_pos_inv
  by_cases h : x < m / 2
  · simp only [if_pos h]
    rw [if_neg (by omega)]
    have h2 : ((x : Int) * 2).toNat = 2 * x := by omega
    rw [h2, Nat.mod_eq_of_lt (by omega)]
    refine ⟨by omega, ?_⟩
    rw [if_pos (by omega)]
    omega
  · simp only [if_neg h]
    rw [if_pos (by omega)]
    have h2 : ((-((x : Int) - (m : Int))) * 2 - 1).toNat = 2 * (m - x) - 1 := by omega
    rw [h2, Nat.mod_eq_of_lt (by omega)]
    refine ⟨by omega, ?_⟩
    rw [if_neg (by omega)]
    omega

theorem map_to_pos_alg_right_inverse (m u : Nat) (hm2 : 2 ≤ m) (hme : m % 2 = 0)
    (hu : u < m) :
    map_to_pos_inv m u < m ∧ map_to_pos_alg m (map_to_pos_inv m u) = u := by
  unfold map_to_pos_inv map_to_pos_alg toSigned
  by_cases h : u % 2 = 0
  · simp only [if_pos h]
    refine ⟨by omega, ?_⟩
    have hin : u / 2 < m / 2 := by omega
    rw [if_pos hin]
    rw [if_neg (show ¬(((u / 2 : Nat) : Int) < 0) by omega)]
    have h3 : (((u / 2 : Nat) : Int) * 2).toNat = 2 * (u / 2) := by omega
    rw [h3, Nat.mod_eq_of_lt (by omega)]
    omega
  · simp only [if_neg h]
    refine ⟨by omega, ?_⟩
    have hin : ¬(m - (u + 1) / 2 < m / 2) := by omega
    rw [if_neg hin]
    rw [if_pos (show ((m - (u + 1) / 2 : Nat) : Int) - (m : Int) < 0 by omega)]
    have h2 : ((-(((m - (u + 1) / 2 : Nat) : Int) - (m : Int))) * 2 - 1).toNat =
        2 * ((u + 1) / 2) - 1 := by omega
    rw [h2, Nat.mod_eq_of_lt (by omega)]
    omega

/-- Claim C7: for each width w in 8, 16, 32, the sign-to-unsigned fold
`u = (s < 0) ? (-s)*2 - 1 : s*2` (wrapping at `2^w`) is a bijection of the
full w-bit range: the decompressor inverse is a two-sided inverse, so in
particular `map_to_pos_inv(map_to_pos(x)) == x` for all `x`. -/
theorem C7_map_to_pos_bijection :
    (∀ x, x < 256 →
      map_to_pos_alg_8 x < 256 ∧ map_to_pos_inv 256 (map_to_pos_alg_8 x) = x) ∧
    (∀ u, u < 256 →
      map_to_pos_inv 256 u < 256 ∧ map_to_pos_alg_8 (map_to_pos_inv 256 u) = u) ∧
    (∀ x, x < M16 →
      map_to_pos_alg_16 x < M16 ∧ map_to_pos_inv M16 (map_to_pos_alg_16 x) = x) ∧
    (∀ u, u < M16 →
      map_to_pos_inv M16 u < M16 ∧ map_to_pos_alg_16 (map_to_pos_inv M16 u) = u) ∧
    (∀ x, x < M32 →
      map_to_pos_alg_32 x < M32 ∧ map_to_pos_inv M32 (map_to_pos_alg_32 x) = x) ∧
    (∀ u, u < M32 →
      map_to_pos_inv M32 u < M32 ∧ map_to_pos_alg_32 (map_to_pos_inv M32 u) = u) := by
  refine ⟨fun x hx => ?_, fun u hu => ?_, fun x hx => ?_, fun u hu => ?_,
          fun x hx => ?_, fun u hu => ?_⟩
  · exact map_to_pos_alg_left_inverse 256 x (by omega) (by omega) hx
  · exact map_to_pos_alg_right_inverse 256 u (by omega) (by omega) hu
  · exact map_to_pos_alg_left_inverse M16 x (by decide) (by decide) hx
  · exact map_to_pos_alg_right_inverse M16 u (by decide) (by decide) hu
  · exact map_to_pos_alg_left_inverse M32 x (by decide) (by decide) hx
  · exact map_to_pos_alg_right_inverse M32 u (by decide) (by decide) hu

/-- Witness for claim C7: the 16-bit mapping at the bit pattern of -3
(the concrete scenario of the manual maps it to 5) round-trips. -/
theorem C7_map_to_pos_bijection_witness :
    map_to_pos_alg_16 65533 < M16 ∧ map_to_pos_inv M16 (map_to_pos_alg_16 65533) = 65533 :=
  C7_map_to_pos_bijection.2.2.1 65533 (by decide)

/-! Claim C5. -/

theorem ilog2_fuel_eq (fuel x : Nat) (h : x ≤ fuel) : ilog2_fuel fuel x = Nat.log2 x := by
  induction fuel generalizing x with
  | zero =>
    have hx : x = 0 := by omega
    subst hx
    rw [ilog2_fuel, Nat.log2]
    rfl
  | succ fuel ih =>
    rw [ilog2_fuel]
    by_cases hx : 2 ≤ x
    · rw [if_pos hx, ih _ (by omega)]
      conv_rhs => rw [Nat.log2]
      rw [if_pos hx]
    · rw [if_neg hx]
      conv_rhs => rw [Nat.log2]
      rw [if_neg hx]

theorem ilog_2_eq_log2 (x : Nat) : ilog_2 x = Nat.log2 x :=
  ilog2_fuel_eq x x le_rfl

theorem ilog_2_bounds (m : Nat) (hm : 1 ≤ m) :
    2 ^ ilog_2 m ≤ m ∧ m < 2 ^ (ilog_2 m + 1) := by
  rw [ilog_2_eq_log2, Nat.log2_eq_log_two]
  exact ⟨Nat.pow_log_le_self 2 (by omega), Nat.lt_pow_succ_log_self (by omega) m⟩

theorem wsub_M32_of_le {a b : Nat} (h1 : b ≤ a) (h2 : a ≤ M32) (h3 : 1 ≤ b) :
    wsub M32 a b = a - b := by
  simp only [wsub, M32] at *
  omega

theorem two_pow_32_eq : (2 : Nat) ^ 32 = M32 := by norm_num [M32]

/-- Claim C5, counterexample: taking the claimed cutoff formula
`c = 2^(ceil(log2 m)+1) - m` literally, for `m = 3` it gives `c = 5` and
classifies `u = 1` into group 0 with a 2-bit codeword, while the
source uses `c = 2^(floor(log2 m)+1) - m = 1` and emits a 3-bit group-1
codeword. -/
theorem C5_counterexample : Golomb_encoder 1 3 (ilog_2 3) ≠ claimedGolombEncoder 1 3 := by
  decide

/-- Claim C5 (amended): for a non-power-of-two divisor `m` the encoder
uses the cutoff `c = 2^(log2_m+1) - m` computed from the floor logarithm
`log2_m = floor(log2 m)` that the callers pass (with `c = m` when that
expression is 0, a case that cannot arise); if `u < c` the codeword is
`u` in `log2_m + 1` bits, otherwise the unary group index `g = (u-c)/m`
followed by a suffix representing `c*2 + (u-c) - g*m`, with total length
`(g+1) + (log2_m+1)`; `select_encoder` picks the Golomb encoder for such
divisors. -/
theorem C5_Golomb_encoder_description (m u : Nat) (hm : 1 ≤ m) (hmM : m < M32)
    (hnp : is_a_pow_of_2 m = false) (hu : u < M32)
    (hlen : (specGolombFloor u m).1 ≤ 32) :
    select_encoder m = some EncoderKind.golomb ∧
    Golomb_encoder u m (ilog_2 m) = specGolombFloor u m := by
  have hm0 : ¬(m = 0) := by omega
  refine ⟨by simp [select_encoder, hm0, hnp], ?_⟩
  obtain ⟨hLle, hLlt⟩ := ilog_2_bounds m hm
  set L := ilog_2 m with hLdef
  have hL31 : L + 1 ≤ 32 := by
    by_contra hc
    have h1 : (2 : Nat) ^ 32 ≤ 2 ^ L := Nat.pow_le_pow_right (by omega) (by omega)
    rw [two_pow_32_eq] at h1
    omega
  have hXle : (2 : Nat) ^ (L + 1) ≤ M32 := by
    rw [← two_pow_32_eq]
    exact Nat.pow_le_pow_right (by omega) hL31
  have hshift : (1 : Nat) <<< (L + 1) = 2 ^ (L + 1) := by
    rw [Nat.shiftLeft_eq, one_mul]
  have hcut : wsub M32 (1 <<< (L + 1)) m = 2 ^ (L + 1) - m := by
    rw [hshift]
    exact wsub_M32_of_le (by omega) hXle hm
  simp only [Golomb_encoder, specGolombFloor, ← hLdef]
  rw [hcut]
  rw [if_neg (show ¬(2 ^ (L + 1) - m = 0) by omega)]
  by_cases hu0 : u < 2 ^ (L + 1) - m
  · rw [if_pos hu0]
    rw [if_pos hu0]
  · rw [if_neg hu0]
    rw [if_neg hu0]
    have hwu : wsub M32 u (2 ^ (L + 1) - m) = u - (2 ^ (L + 1) - m) :=
      wsub_M32_of_le (by omega) (by omega) (by omega)
    rw [hwu]
    simp only [specGolombFloor, ← hLdef] at hlen
    rw [if_neg (show ¬(2 ^ (L + 1) - m = 0) by omega), if_neg hu0] at hlen
    obtain ⟨c, hcdef⟩ : ∃ x, 2 ^ (L + 1) - m = x := ⟨_, rfl⟩
    rw [hcdef] at hu0 hlen ⊢
    obtain ⟨g, hgdef⟩ : ∃ x, (u - c) / m = x := ⟨_, rfl⟩
    rw [hgdef] at hlen ⊢
    have hglen : g + L + 2 ≤ 32 := by omega
    have hq : wsub M32 (1 <<< g) 1 = 2 ^ g - 1 := by
      rw [Nat.shiftLeft_eq, one_mul]
      refine wsub_M32_of_le (Nat.one_le_pow _ _ (by omega)) ?_ le_rfl
      rw [← two_pow_32_eq]
      exact Nat.pow_le_pow_right (by omega) (by omega)
    rw [hq]
    have hp1 : (2 : Nat) ^ (L + 2) = 2 * 2 ^ (L + 1) := by
      rw [pow_succ, Nat.mul_comm]
    have hL2 : (2 : Nat) ^ (L + 2) ≤ M32 := by
      rw [← two_pow_32_eq]
      exact Nat.pow_le_pow_right (by omega) (by omega)
    have hb : c <<< 1 % M32 = 2 * c := by
      rw [Nat.shiftLeft_eq, pow_one, Nat.mul_comm]
      apply Nat.mod_eq_of_lt
      omega
    rw [hb]
    have hdm := Nat.div_add_mod (u - c) m
    rw [Nat.mul_comm, hgdef] at hdm
    have hmlt := Nat.mod_lt (u - c) (show 0 < m by omega)
    have hgm : g * m ≤ u - c := by omega
    have hrem : u - c - g * m < m := by omega
    have hshq : (2 ^ g - 1) <<< (L + 1 + 1) = (2 ^ g - 1) * 2 ^ (L + 2) := by
      rw [Nat.shiftLeft_eq]
    have hpowsum : (2 : Nat) ^ g * 2 ^ (L + 2) = 2 ^ (g + L + 2) := by
      have hx : g + (L + 2) = g + L + 2 := by omega
      rw [← pow_add, hx]
    have hpowle : (2 : Nat) ^ (g + L + 2) ≤ M32 := by
      rw [← two_pow_32_eq]
      exact Nat.pow_le_pow_right (by omega) hglen
    have hsub1 : (2 ^ g - 1) * 2 ^ (L + 2) + 2 ^ (L + 2) = 2 ^ g * 2 ^ (L + 2) := by
      rw [Nat.sub_mul, one_mul]
      have h' : (2 : Nat) ^ (L + 2) ≤ 2 ^ g * 2 ^ (L + 2) :=
        Nat.le_mul_of_pos_left _ (Nat.pos_pow_of_pos _ (by omega))
      omega
    have hkey : (2 ^ g - 1) * 2 ^ (L + 2) = (2 ^ (g + 1) - 2) * 2 ^ (L + 1) := by
      have e1 : (2 ^ g - 1) * 2 ^ (L + 2) = 2 ^ g * 2 ^ (L + 2) - 2 ^ (L + 2) := by
        rw [Nat.sub_mul, one_mul]
      have e2 : (2 ^ (g + 1) - 2) * 2 ^ (L + 1) =
          2 ^ (g + 1) * 2 ^ (L + 1) - 2 * 2 ^ (L + 1) := by
        rw [Nat.sub_mul]
      have hexp : g + (L + 2) = g + 1 + (L + 1) := by omega
      have e3 : (2 : Nat) ^ g * 2 ^ (L + 2) = 2 ^ (g + 1 + (L + 1)) := by
        rw [← pow_add, hexp]
      have e5 : (2 : Nat) ^ (g + 1) * 2 ^ (L + 1) = 2 ^ (g + 1 + (L + 1)) := by
        rw [← pow_add]
      rw [e1, e2, e3, e5, ← hp1]
    have hsmall : (2 ^ g - 1) * 2 ^ (L + 2) + 2 * c + (u - c) - g * m < M32 := by
      have hc2 : 2 * c + m ≤ 2 ^ (L + 2) := by
        rw [hp1]
        omega
      omega
    rw [hshq]
    have hcw : ((2 ^ g - 1) * 2 ^ (L + 2) + 2 * c + (u - c) - g * m) % M32 =
        (2 ^ g - 1) * 2 ^ (L + 2) + 2 * c + (u - c) - g * m :=
      Nat.mod_eq_of_lt hsmall
    rw [hcw, hkey]
    rw [Prod.mk.injEq]
    constructor
    · omega
    · omega

/-- Witness for the amended claim C5 at `m = 3`, `u = 5`: the 4-bit
group-1 codeword 11 comes out of both the source encoder and the
amended description. -/
theorem C5_Golomb_encoder_description_witness :
    select_encoder 3 = some EncoderKind.golomb ∧
    Golomb_encoder 5 3 (ilog_2 3) = specGolombFloor 5 3 :=
  C5_Golomb_encoder_description 3 5 (by decide) (by decide) (by decide) (by decide)
    (by decide)

/-! Claim C4. -/

theorem multi_escape_not_zero_escape (mo : CmpMode)
    (h : multi_escape_mech_is_used mo = true) :
    zero_escape_mech_is_used mo = false := by
  cases mo <;> revert h <;> decide

/-- Claim C4: in multi-escape modes the outlier path is taken exactly for
`u >= spill` (the zero-escape trigger is impossible under multi escape);
the escape-offset table agrees with the claim's 16-row step table, values
below the spillover emit one normal codeword, and values at or above it
emit the normal codeword of `spill + offset` followed by `d = u - spill`
as `(offset + 1) * 2` unencoded bits. -/
theorem C4_multi_escape_policy (cfg : CmpCfg) (enc : encoder_struct) (out : List Nat)
    (u bit_len : Nat) (hmulti : multi_escape_mech_is_used cfg.cmp_mode = true)
    (huM : u < M32) :
    cal_multi_offset (wsub M32 u cfg.spill) = specMultiOffset (wsub M32 u cfg.spill) ∧
    (u < cfg.spill →
      encode_value u bit_len cfg enc out = encode_normal u cfg enc out) ∧
    (cfg.spill ≤ u →
      encode_value u bit_len cfg enc out =
        (let d := u - cfg.spill
         let off := specMultiOffset d
         let r1 := encode_normal ((cfg.spill + off) % M32) cfg enc out
         let p := put_n_bits32 d r1.2.1.cmp_size ((off + 1) * 2) r1.2.2 cfg.buffer_length
         if p.1 ≤ 0 then (p.1, r1.2.1, p.2)
         else (0, { r1.2.1 with cmp_size := r1.2.1.cmp_size + (off + 1) * 2 }, p.2))) := by
  refine ⟨cal_multi_offset_eq_spec _, ?_, ?_⟩
  · intro hlt
    have hz := multi_escape_not_zero_escape cfg.cmp_mode hmulti
    unfold encode_value
    rw [if_neg]
    intro hc
    rcases hc with hge | ⟨hzz, _⟩
    · omega
    · rw [hz] at hzz
      exact Bool.noConfusion hzz
  · intro hge
    have huM' : u < 4294967296 := huM
    have hw : wsub M32 u cfg.spill = u - cfg.spill := by
      simp only [wsub, M32]
      omega
    simp only [encode_value, encode_outlier, encode_outlier_multi]
    rw [if_pos (Or.inl hge), if_pos hmulti, hw, cal_multi_offset_eq_spec]

/-- Witness for claim C4 at `u = 9` (outlier path, `spill = 8`) in the
multi-escape mode MODE_DIFF_MULTI_S_FX_EFX. -/
theorem C4_multi_escape_policy_witness :
    multi_escape_mech_is_used cfgEfxC1.cmp_mode = true ∧ (9 : Nat) < M32 ∧
    (cfgEfxC1.spill ≤ 9 →
      encode_value 9 32 cfgEfxC1 encEfxC1 [0, 0] =
        (let d := 9 - cfgEfxC1.spill
         let off := specMultiOffset d
         let r1 := encode_normal ((cfgEfxC1.spill + off) % M32) cfgEfxC1 encEfxC1 [0, 0]
         let p := put_n_bits32 d r1.2.1.cmp_size ((off + 1) * 2) r1.2.2 cfgEfxC1.buffer_length
         if p.1 ≤ 0 then (p.1, r1.2.1, p.2)
         else (0, { r1.2.1 with cmp_size := r1.2.1.cmp_size + (off + 1) * 2 }, p.2))) :=
  ⟨by decide, by decide,
    (C4_multi_escape_policy cfgEfxC1 encEfxC1 [0, 0] 9 32 (by decide) (by decide)).2.2⟩

/-! Claim C1. -/

theorem encode_normal_shape (v : Nat) (cfg : CmpCfg) (e : encoder_struct) (o : List Nat) :
    ∃ c, (encode_normal v cfg e o).2.1 = { e with cmp_size := c } := by
  obtain ⟨eo, el, ec⟩ := e
  cases eo with
  | none => exact ⟨ec, rfl⟩
  | some ek =>
    simp only [encode_normal]
    split
    · exact ⟨ec, rfl⟩
    · exact ⟨_, rfl⟩

theorem encode_outlier_zero_shape (v mb : Nat) (cfg : CmpCfg) (e : encoder_struct)
    (o : List Nat) :
    ∃ c, (encode_outlier_zero v mb cfg e o).2.1 = { e with cmp_size := c } := by
  simp only [encode_outlier_zero]
  split
  · exact ⟨e.cmp_size, rfl⟩
  · obtain ⟨c1, h1⟩ := encode_normal_shape 0 cfg e o
    split
    · exact ⟨c1, h1⟩
    · exact ⟨_, by rw [h1]⟩

theorem encode_outlier_multi_shape (v : Nat) (cfg : CmpCfg) (e : encoder_struct)
    (o : List Nat) :
    ∃ c, (encode_outlier_multi v cfg e o).2.1 = { e with cmp_size := c } := by
  obtain ⟨c1, h1⟩ := encode_normal_shape
    ((cfg.spill + cal_multi_offset (wsub M32 v cfg.spill)) % M32) cfg e o
  simp only [encode_outlier_multi]
  split
  · exact ⟨c1, h1⟩
  · exact ⟨_, by rw [h1]⟩

theorem encode_outlier_shape (v bl : Nat) (cfg : CmpCfg) (e : encoder_struct)
    (o : List Nat) :
    ∃ c, (encode_outlier v bl cfg e o).2.1 = { e with cmp_size := c } := by
  simp only [encode_outlier]
  split
  · exact encode_outlier_multi_shape v cfg e o
  · split
    · exact encode_outlier_zero_shape v bl cfg e o
    · exact ⟨e.cmp_size, rfl⟩

theorem encode_value_shape (v bl : Nat) (cfg : CmpCfg) (e : encoder_struct)
    (o : List Nat) :
    ∃ c, (encode_value v bl cfg e o).2.1 = { e with cmp_size := c } := by
  simp only [encode_value]
  split
  · exact encode_outlier_shape v bl cfg e o
  · exact encode_normal_shape v cfg e o

theorem encode_fields_nil_ne (st : encoder_struct) (o : List Nat) :
    ¬((((0 : Int), st, o) : Int × encoder_struct × List Nat).1 ≠ 0) :=
  fun h => h rfl

theorem encode_S_FX_loop_fixed (cfg : CmpCfg) (l : List S_FX) :
    ∀ enc out,
      encode_S_FX_loop cfg { cfg with golomb_par := GOLOMB_PAR_EXPOSURE_FLAGS } l enc
        { enc with log2_golomb_par := ilog_2 GOLOMB_PAR_EXPOSURE_FLAGS } out =
      claimedFixed_S_FX cfg l enc out := by
  induction l with
  | nil => intro enc out; rfl
  | cons s rest ih =>
    intro enc out
    obtain ⟨eo, el, ec⟩ := enc
    simp only [encode_S_FX_loop, claimedFixed_S_FX]
    obtain ⟨c1, h1⟩ := encode_normal_shape s.EXPOSURE_FLAGS
      { cfg with golomb_par := GOLOMB_PAR_EXPOSURE_FLAGS }
      ⟨eo, ilog_2 GOLOMB_PAR_EXPOSURE_FLAGS, ec⟩ out
    obtain ⟨r1, hr1⟩ : ∃ x, encode_normal s.EXPOSURE_FLAGS
        { cfg with golomb_par := GOLOMB_PAR_EXPOSURE_FLAGS }
        ⟨eo, ilog_2 GOLOMB_PAR_EXPOSURE_FLAGS, ec⟩ out = x := ⟨_, rfl⟩
    rw [hr1] at h1
    rw [hr1]
    by_cases he1 : r1.1 ≠ 0
    · simp only [if_pos he1]
    · simp only [if_neg he1]
      rw [h1]
      dsimp only
      obtain ⟨c2, h2⟩ := encode_value_shape s.FX 32 cfg
        ⟨eo, ilog_2 cfg.golomb_par, c1⟩ r1.2.2
      obtain ⟨r2, hr2⟩ : ∃ x, encode_value s.FX 32 cfg
          ⟨eo, ilog_2 cfg.golomb_par, c1⟩ r1.2.2 = x := ⟨_, rfl⟩
      rw [hr2] at h2
      rw [hr2]
      by_cases he2 : r2.1 ≠ 0
      · simp only [if_pos he2]
      · simp only [if_neg he2]
        rw [h2]
        dsimp only
        exact ih ⟨eo, ilog_2 cfg.golomb_par, c2⟩ r2.2.2

theorem encode_S_FX_EFX_loop_uniform (cfg : CmpCfg) (l : List S_FX_EFX) :
    ∀ enc out, encode_S_FX_EFX_loop cfg l enc out = claimedUniform_S_FX_EFX cfg l enc out := by
  induction l with
  | nil => intro enc out; rfl
  | cons s rest ih =>
    intro enc out
    simp only [encode_S_FX_EFX_loop, claimedUniform_S_FX_EFX, encode_fields]
    obtain ⟨r1, hr1⟩ : ∃ x, encode_value s.EXPOSURE_FLAGS 8 cfg enc out = x := ⟨_, rfl⟩
    rw [hr1]
    by_cases he1 : r1.1 ≠ 0
    · simp only [if_pos he1]
    · simp only [if_neg he1]
      obtain ⟨r2, hr2⟩ : ∃ x, encode_value s.FX 32 cfg r1.2.1 r1.2.2 = x := ⟨_, rfl⟩
      rw [hr2]
      by_cases he2 : r2.1 ≠ 0
      · simp only [if_pos he2]
      · simp only [if_neg he2]
        obtain ⟨r3, hr3⟩ : ∃ x, encode_value s.EFX 32 cfg r2.2.1 r2.2.2 = x := ⟨_, rfl⟩
        rw [hr3]
        by_cases he3 : r3.1 ≠ 0
        · simp only [if_pos he3]
        · simp only [if_neg he3]
          rw [if_neg (encode_fields_nil_ne r3.2.1 r3.2.2)]
          exact ih r3.2.1 r3.2.2

theorem encode_S_FX_NCOB_loop_uniform (cfg : CmpCfg) (l : List S_FX_NCOB) :
    ∀ enc out, encode_S_FX_NCOB_loop cfg l enc out = claimedUniform_S_FX_NCOB cfg l enc out := by
  induction l with
  | nil => intro enc out; rfl
  | cons s rest ih =>
    intro enc out
    simp only [encode_S_FX_NCOB_loop, claimedUniform_S_FX_NCOB, encode_fields]
    obtain ⟨r1, hr1⟩ : ∃ x, encode_value s.EXPOSURE_FLAGS 8 cfg enc out = x := ⟨_, rfl⟩
    rw [hr1]
    by_cases he1 : r1.1 ≠ 0
    · simp only [if_pos he1]
    · simp only [if_neg he1]
      obtain ⟨r2, hr2⟩ : ∃ x, encode_value s.FX 32 cfg r1.2.1 r1.2.2 = x := ⟨_, rfl⟩
      rw [hr2]
      by_cases he2 : r2.1 ≠ 0
      · simp only [if_pos he2]
      · simp only [if_neg he2]
        obtain ⟨r3, hr3⟩ : ∃ x, encode_value s.NCOB_X 32 cfg r2.2.1 r2.2.2 = x := ⟨_, rfl⟩
        rw [hr3]
        by_cases he3 : r3.1 ≠ 0
        · simp only [if_pos he3]
        · simp only [if_neg he3]
          obtain ⟨r4, hr4⟩ : ∃ x, encode_value s.NCOB_Y 32 cfg r3.2.1 r3.2.2 = x := ⟨_, rfl⟩
          rw [hr4]
          by_cases he4 : r4.1 ≠ 0
          · simp only [if_pos he4]
          · simp only [if_neg he4]
            rw [if_neg (encode_fields_nil_ne r4.2.1 r4.2.2)]
            exact ih r4.2.1 r4.2.2

theorem encode_S_FX_EFX_NCOB_ECOB_loop_uniform (cfg : CmpCfg) (l : List S_FX_EFX_NCOB_ECOB) :
    ∀ enc out, encode_S_FX_EFX_NCOB_ECOB_loop cfg l enc out = claimedUniform_S_FX_EFX_NCOB_ECOB cfg l enc out := by
  induction l with
  | nil => intro enc out; rfl
  | cons s rest ih =>
    intro enc out
    simp only [encode_S_FX_EFX_NCOB_ECOB_loop, claimedUniform_S_FX_EFX_NCOB_ECOB, encode_fields]
    obtain ⟨r1, hr1⟩ : ∃ x, encode_value s.EXPOSURE_FLAGS 8 cfg enc out = x := ⟨_, rfl⟩
    rw [hr1]
    by_cases he1 : r1.1 ≠ 0
    · simp only [if_pos he1]
    · simp only [if_neg he1]
      obtain ⟨r2, hr2⟩ : ∃ x, encode_value s.FX 32 cfg r1.2.1 r1.2.2 = x := ⟨_, rfl⟩
      rw [hr2]
      by_cases he2 : r2.1 ≠ 0
      · simp only [if_pos he2]
      · simp only [if_neg he2]
        obtain ⟨r3, hr3⟩ : ∃ x, encode_value s.NCOB_X 32 cfg r2.2.1 r2.2.2 = x := ⟨_, rfl⟩
        rw [hr3]
        by_cases he3 : r3.1 ≠ 0
        · simp only [if_pos he3]
        · simp only [if_neg he3]
          obtain ⟨r4, hr4⟩ : ∃ x, encode_value s.NCOB_Y 32 cfg r3.2.1 r3.2.2 = x := ⟨_, rfl⟩
          rw [hr4]
          by_cases he4 : r4.1 ≠ 0
          · simp only [if_pos he4]
          · simp only [if_neg he4]
            obtain ⟨r5, hr5⟩ : ∃ x, encode_value s.EFX 32 cfg r4.2.1 r4.2.2 = x := ⟨_, rfl⟩
            rw [hr5]
            by_cases he5 : r5.1 ≠ 0
            · simp only [if_pos he5]
            · simp only [if_neg he5]
              obtain ⟨r6, hr6⟩ : ∃ x, encode_value s.ECOB_X 32 cfg r5.2.1 r5.2.2 = x := ⟨_, rfl⟩
              rw [hr6]
              by_cases he6 : r6.1 ≠ 0
              · simp only [if_pos he6]
              · simp only [if_neg he6]
                obtain ⟨r7, hr7⟩ : ∃ x, encode_value s.ECOB_Y 32 cfg r6.2.1 r6.2.2 = x := ⟨_, rfl⟩
                rw [hr7]
                by_cases he7 : r7.1 ≠ 0
                · simp only [if_pos he7]
                · simp only [if_neg he7]
                  rw [if_neg (encode_fields_nil_ne r7.2.1 r7.2.2)]
                  exact ih r7.2.1 r7.2.2

/-- Claim C1, counterexample: in mode MODE_DIFF_MULTI_S_FX_EFX with one
all-zero sample the source encodes the exposure flags with the configured
`golomb_par = 4` (9 bits total), while the claimed fixed-parameter
encoding of the same sample takes 7 bits, so the two disagree. -/
theorem C1_counterexample :
    encode_S_FX_EFX [{ EXPOSURE_FLAGS := 0, FX := 0, EFX := 0 }] cfgEfxC1 encEfxC1
        [0, 0, 0, 0] ≠
      claimedFixed_S_FX_EFX cfgEfxC1 [{ EXPOSURE_FLAGS := 0, FX := 0, EFX := 0 }] encEfxC1
        [0, 0, 0, 0] := by
  decide

/-- Claim C1 (amended): only the plain S_FX shape encodes the exposure
flags with the fixed parameter GOLOMB_PAR_EXPOSURE_FLAGS (via a secondary
encoder state that the source stitches into the main one); the S_FX_EFX,
S_FX_NCOB and S_FX_EFX_NCOB_ECOB encoders pass every field, exposure
flags included, through `encode_value` with the configured golomb_par. -/
theorem C1_exposure_flags_parameter (cfg : CmpCfg) (enc : encoder_struct) (out : List Nat)
    (dS : List S_FX) (dE : List S_FX_EFX) (dN : List S_FX_NCOB)
    (dF : List S_FX_EFX_NCOB_ECOB) :
    encode_S_FX dS cfg enc out =
      claimedFixed_S_FX cfg (dS.take cfg.samples) enc out ∧
    encode_S_FX_EFX dE cfg enc out =
      claimedUniform_S_FX_EFX cfg (dE.take cfg.samples) enc out ∧
    encode_S_FX_NCOB dN cfg enc out =
      claimedUniform_S_FX_NCOB cfg (dN.take cfg.samples) enc out ∧
    encode_S_FX_EFX_NCOB_ECOB dF cfg enc out =
      claimedUniform_S_FX_EFX_NCOB_ECOB cfg (dF.take cfg.samples) enc out :=
  ⟨encode_S_FX_loop_fixed cfg (dS.take cfg.samples) enc out,
   encode_S_FX_EFX_loop_uniform cfg (dE.take cfg.samples) enc out,
   encode_S_FX_NCOB_loop_uniform cfg (dN.take cfg.samples) enc out,
   encode_S_FX_EFX_NCOB_ECOB_loop_uniform cfg (dF.take cfg.samples) enc out⟩


/-! Claim C2. -/

/-- Claim C2, divergence evidence (code bug): the validator accepts
`cfgRawSFX`; the raw S_FX serialization needs 40 bits while the output
capacity is 32 bits, so the claim demands the return value -2, the
SMALL_BUFFER_ERR_BIT and `cmp_size = 0`; instead `icu_compress_data`
returns 0 (success), reports `cmp_size = 40` and leaves `cmp_err` clear,
because `encode_data` only inspects the `-2` status and the raw copy
signals the overflow with `-1`. -/
theorem C2_overflow_swallowed :
    (icu_cmp_cfg_valid cfgRawSFX (some infoZero)).1 = 0 ∧
    cfgRawSFX.samples * size_of_a_sample cfgRawSFX.cmp_mode * 8 = 40 ∧
    ((cfgRawSFX.buffer_length + 1) / 2) * 2 * 16 = 32 ∧
    (encode_data_dispatch cfgRawSFX memRawSFX
      { encoder := select_encoder cfgRawSFX.golomb_par
        log2_golomb_par := ilog_2 cfgRawSFX.golomb_par, cmp_size := 0 }).1 = -1 ∧
    (icu_compress_data cfgRawSFX memRawSFX (some infoZero)).1 = 0 ∧
    (icu_compress_data cfgRawSFX memRawSFX (some infoZero)).2.2.map cmp_info.cmp_size =
      some 40 ∧
    (icu_compress_data cfgRawSFX memRawSFX (some infoZero)).2.2.map cmp_info.cmp_err =
      some 0 := by
  decide

/-! Claim C8. -/

theorem int_zero_not_ne : ¬((0 : Int) ≠ 0) := fun h => h rfl

theorem cfg_valid_bufs (cfg : CmpCfg) (h : cfg_invalid_count cfg = 0) :
    cfg.input_buf ≠ 0 ∧ cfg.icu_output_buf ≠ 0 := by
  simp only [cfg_invalid_count] at h
  split at h
  · exact ⟨bool01_eq_zero.mp (by omega), bool01_eq_zero.mp (by omega)⟩
  · exact ⟨bool01_eq_zero.mp (by omega), bool01_eq_zero.mp (by omega)⟩

theorem encode_data_dispatch_no_samples (cfg : CmpCfg) (m : CmpMem) (enc0 : encoder_struct)
    (hs : cfg.samples = 0) (hin : cfg.input_buf ≠ 0) (hout : cfg.icu_output_buf ≠ 0)
    (hc0 : enc0.cmp_size = 0) :
    encode_data_dispatch cfg m enc0 = (0, enc0, m) := by
  obtain ⟨mode, gp, sp, mv, rnd, smp, bl, ib, ob, mb, nmb, rna, rba⟩ := cfg
  obtain ⟨eo, el, ec⟩ := enc0
  dsimp only at hs hin hout hc0
  subst hs
  subst hc0
  cases mode <;>
    simp [encode_data_dispatch, encode_raw_16, encode_raw_S_FX, encode_raw, rawBytes,
      encode_16, encode_32, encode_S_FX, encode_S_FX_EFX, encode_S_FX_NCOB,
      encode_S_FX_EFX_NCOB_ECOB, encode_16_loop, encode_32_loop, encode_S_FX_loop,
      encode_S_FX_EFX_loop, encode_S_FX_NCOB_loop, encode_S_FX_EFX_NCOB_ECOB_loop,
      hin, hout]

theorem encode_data_no_samples (cfg : CmpCfg) (m : CmpMem) (info : Option cmp_info)
    (hs : cfg.samples = 0) (hin : cfg.input_buf ≠ 0) (hout : cfg.icu_output_buf ≠ 0) :
    encode_data cfg m info = (0, m, info.map (fun i => { i with cmp_size := 0 })) := by
  simp only [encode_data]
  rw [encode_data_dispatch_no_samples cfg m
    { encoder := select_encoder cfg.golomb_par
      log2_golomb_par := ilog_2 cfg.golomb_par, cmp_size := 0 } hs hin hout rfl]
  dsimp only
  rw [if_neg (show ¬((0 : Int) = -2) from by decide)]
  rw [if_neg (show ¬(raw_mode_is_used cfg.cmp_mode = false ∧ (0 : Nat) ≠ 0) from
    fun h => h.2 rfl)]

/-- Claim C8, counterexample: two configurations with `samples = 0` that
the validator accepts although `icu_compress_data` fails with `-1`
(`set_info` rejects `model_value > 255` and `round > 255` before the
validator ever runs, and the validator does not check these bounds in
diff and raw modes). -/
theorem C8_counterexample :
    cfgMv256.samples = 0 ∧ (icu_cmp_cfg_valid cfgMv256 (some infoZero)).1 = 0 ∧
    (icu_compress_data cfgMv256 memEmpty16 (some infoZero)).1 ≠ 0 ∧
    cfgRound300.samples = 0 ∧ (icu_cmp_cfg_valid cfgRound300 (some infoZero)).1 = 0 ∧
    (icu_compress_data cfgRound300 memEmpty16 (some infoZero)).1 ≠ 0 := by
  decide

/-- Claim C8 (amended): for a configuration the validator accepts with
`samples = 0` whose `model_value` and `round` also pass the `uint8_t`
range check of `set_info`, the pipeline returns 0 and reports
`cmp_size = 0`; moreover setting `samples` to 0 in any configuration the
validator accepts never makes the validator report an error. -/
theorem C8_no_samples_success (cfg : CmpCfg) (m : CmpMem) (i0 : cmp_info)
    (hs : cfg.samples = 0) (hmv : cfg.model_value ≤ 255) (hr : cfg.round ≤ 255)
    (hacc : (icu_cmp_cfg_valid cfg (some i0)).1 = 0) :
    ((icu_compress_data cfg m (some i0)).1 = 0 ∧
     ∃ i, (icu_compress_data cfg m (some i0)).2.2 = some i ∧ i.cmp_size = 0) ∧
    (∀ cfg2 : CmpCfg, (icu_cmp_cfg_valid cfg2 (none : Option cmp_info)).1 = 0 →
      (icu_cmp_cfg_valid { cfg2 with samples := 0 } (none : Option cmp_info)).1 = 0) := by
  have hcount : cfg_invalid_count cfg = 0 := by
    simp only [icu_cmp_cfg_valid] at hacc
    omega
  obtain ⟨hin, hout⟩ := cfg_valid_bufs cfg hcount
  obtain ⟨i1, hi1⟩ : ∃ i1, set_info cfg (some i0) = (0, some i1) := by
    simp only [set_info]
    rw [if_neg (by omega), if_neg (by omega)]
    exact ⟨_, rfl⟩
  have hv1 : icu_cmp_cfg_valid cfg (some i1) =
      (0, (some i1).map (fun i => { i with cmp_err := cfg_err_bits cfg })) := by
    simp only [icu_cmp_cfg_valid, hcount, Nat.cast_zero, neg_zero]
  obtain ⟨i2, hfull, hi2size⟩ : ∃ i2,
      icu_compress_data cfg m (some i0) = (0, m, some i2) ∧ i2.cmp_size = 0 := by
    simp only [icu_compress_data]
    rw [hi1]
    dsimp only
    rw [if_neg int_zero_not_ne]
    rw [hv1]
    dsimp only
    rw [if_neg int_zero_not_ne]
    rw [show pre_process cfg m = (0, m) from by simp only [pre_process, if_pos hs]]
    dsimp only
    rw [if_neg int_zero_not_ne]
    rw [show map_to_pos cfg m = (0, m) from by simp only [map_to_pos, if_pos hs]]
    dsimp only
    rw [if_neg int_zero_not_ne]
    rw [encode_data_no_samples cfg m _ hs hin hout]
    exact ⟨_, rfl, rfl⟩
  refine ⟨⟨by rw [hfull], ⟨i2, by rw [hfull], hi2size⟩⟩, ?_⟩
  intro cfg2 hv2
  have hc2 : cfg_invalid_count cfg2 = 0 := by
    simp only [icu_cmp_cfg_valid] at hv2
    omega
  have hc2z : cfg_invalid_count { cfg2 with samples := 0 } = 0 := by
    simp only [cfg_invalid_count] at hc2 ⊢
    rw [bool01_of_not (show ¬(cfg2.buffer_length = 0 ∧ (0 : Nat) ≠ 0) from fun h => h.2 rfl)]
    rw [bool01_of_not (show ¬((0 : Nat) > cfg2.buffer_length) from by omega)]
    by_cases hraw : raw_mode_is_used cfg2.cmp_mode = true
    · simp only [if_pos hraw] at hc2 ⊢
      omega
    · simp only [if_neg hraw] at hc2 ⊢
      omega
  simp only [icu_cmp_cfg_valid, hc2z, Nat.cast_zero, neg_zero]

/-- Witness for the amended claim C8 on a concrete accepted zero-sample
configuration: the pipeline succeeds and reports a zero compressed size. -/
theorem C8_no_samples_success_witness :
    cfgNoSamples.samples = 0 ∧ cfgNoSamples.model_value ≤ 255 ∧ cfgNoSamples.round ≤ 255 ∧
    (icu_cmp_cfg_valid cfgNoSamples (some infoZero)).1 = 0 ∧
    (icu_compress_data cfgNoSamples memEmpty16 (some infoZero)).1 = 0 ∧
    ∃ i, (icu_compress_data cfgNoSamples memEmpty16 (some infoZero)).2.2 = some i ∧
      i.cmp_size = 0 :=
  ⟨rfl, by decide, by decide, by decide,
   ((C8_no_samples_success cfgNoSamples memEmpty16 infoZero rfl (by decide) (by decide)
      (by decide)).1).1,
   ((C8_no_samples_success cfgNoSamples memEmpty16 infoZero rfl (by decide) (by decide)
      (by decide)).1).2⟩

/-! Claim C9. -/

/-- Claim C9: in the 32-bit model modes (MODE_MODEL_ZERO_32,
MODE_MODEL_MULTI_32, MODE_MODEL_ZERO_F_FX, MODE_MODEL_MULTI_F_FX)
`pre_process` never reads `icu_new_model_buf` or the updated-model
storage (changing both leaves the status and the rest of the state
untouched) and writes the updated model into the model buffer in place;
the 16-bit and S_FX model modes with a separate non-aliasing
`icu_new_model_buf` leave the model buffer unchanged and write the
updated model into the separate buffer. -/
theorem C9_model32_in_place (cfg : CmpCfg) (m : CmpMem) (nm : BufData) (ptr : Nat)
    (hmode : cfg.cmp_mode = CmpMode.MODE_MODEL_ZERO_32 ∨
             cfg.cmp_mode = CmpMode.MODE_MODEL_MULTI_32 ∨
             cfg.cmp_mode = CmpMode.MODE_MODEL_ZERO_F_FX ∨
             cfg.cmp_mode = CmpMode.MODE_MODEL_MULTI_F_FX) :
    ((pre_process { cfg with icu_new_model_buf := ptr } { m with newModel := nm }).1 =
       (pre_process cfg m).1 ∧
     (pre_process { cfg with icu_new_model_buf := ptr } { m with newModel := nm }).2 =
       { (pre_process cfg m).2 with newModel := nm }) ∧
    (cfg.samples ≠ 0 → cfg.input_buf ≠ 0 → cfg.model_buf ≠ 0 →
      cfg.model_value ≤ MAX_MODEL_VALUE →
      (pre_process cfg m).2.model =
        BufData.u32 (model_32_core m.input.as32 m.model.as32
          cfg.samples cfg.model_value cfg.round).2 ∧
      (pre_process cfg m).2.newModel = m.newModel) ∧
    (∀ c16 : CmpCfg, ∀ m16 : CmpMem, c16.cmp_mode = CmpMode.MODE_MODEL_ZERO →
      c16.samples ≠ 0 → c16.input_buf ≠ 0 → c16.model_buf ≠ 0 →
      c16.model_value ≤ MAX_MODEL_VALUE → c16.icu_new_model_buf ≠ 0 →
      c16.icu_new_model_buf ≠ c16.model_buf →
      (pre_process c16 m16).2.model = m16.model ∧
      (pre_process c16 m16).2.newModel =
        BufData.u16 (model_16_core m16.input.as16 m16.model.as16 m16.newModel.as16
          c16.samples c16.model_value c16.round).2) ∧
    (∀ cS : CmpCfg, ∀ mS : CmpMem, cS.cmp_mode = CmpMode.MODE_MODEL_ZERO_S_FX →
      cS.samples ≠ 0 → cS.input_buf ≠ 0 → cS.model_buf ≠ 0 →
      cS.model_value ≤ MAX_MODEL_VALUE → cS.icu_new_model_buf ≠ 0 →
      cS.icu_new_model_buf ≠ cS.model_buf →
      (pre_process cS mS).2.model = mS.model ∧
      (pre_process cS mS).2.newModel =
        BufData.sfx (model_S_FX_core mS.input.asSFX mS.model.asSFX mS.newModel.asSFX
          cS.samples cS.model_value cS.round).2) := by
  obtain ⟨mode, gp, sp, mv, rnd, smp, bl, ib, ob, mb, nmb, rna, rba⟩ := cfg
  dsimp only at hmode
  refine ⟨?_, ?_, ?_, ?_⟩
  · rcases hmode with h | h | h | h <;> subst h <;> refine ⟨?_, ?_⟩ <;>
      · simp only [pre_process]
        split_ifs <;> rfl
  · rcases hmode with h | h | h | h <;> subst h <;>
      · intro h1 h2 h3 h4
        dsimp only at h1 h2 h3 h4
        simp only [pre_process]
        rw [if_neg h1, if_neg h2, if_neg h3, if_neg (by omega)]
        exact ⟨rfl, rfl⟩
  · intro c16 m16 hm16 h1 h2 h3 h4 h5 h6
    obtain ⟨mode16, gp16, sp16, mv16, rnd16, smp16, bl16, ib16, ob16, mb16, nmb16,
      rna16, rba16⟩ := c16
    dsimp only at hm16 h1 h2 h3 h4 h5 h6
    subst hm16
    simp only [pre_process]
    rw [if_neg h1, if_neg h2, if_neg h3, if_neg (by omega),
      if_neg (show ¬(nmb16 = 0 ∨ nmb16 = mb16) from fun hor => hor.elim h5 h6)]
    exact ⟨rfl, rfl⟩
  · intro cS mS hmS h1 h2 h3 h4 h5 h6
    obtain ⟨modeS, gpS, spS, mvS, rndS, smpS, blS, ibS, obS, mbS, nmbS, rnaS, rbaS⟩ := cS
    dsimp only at hmS h1 h2 h3 h4 h5 h6
    subst hmS
    simp only [pre_process]
    rw [if_neg h1, if_neg h2, if_neg h3, if_neg (by omega),
      if_neg (show ¬(nmbS = 0 ∨ nmbS = mbS) from fun hor => hor.elim h5 h6)]
    exact ⟨rfl, rfl⟩

/-- Witness for claim C9 on concrete one-sample model scenarios: the
32-bit mode ignores the separate pointer and buffer, writes the model in
place, and the 16-bit and S_FX modes honour the separate buffer. -/
theorem C9_model32_in_place_witness :
    (cfgModel32.cmp_mode = CmpMode.MODE_MODEL_ZERO_32 ∨
     cfgModel32.cmp_mode = CmpMode.MODE_MODEL_MULTI_32 ∨
     cfgModel32.cmp_mode = CmpMode.MODE_MODEL_ZERO_F_FX ∨
     cfgModel32.cmp_mode = CmpMode.MODE_MODEL_MULTI_F_FX) ∧
    (pre_process { cfgModel32 with icu_new_model_buf := 7 }
        { memModel32 with newModel := BufData.u32 [42] }).2 =
      { (pre_process cfgModel32 memModel32).2 with newModel := BufData.u32 [42] } ∧
    (pre_process cfgModel32 memModel32).2.model =
      BufData.u32 (model_32_core memModel32.input.as32 memModel32.model.as32
        cfgModel32.samples cfgModel32.model_value cfgModel32.round).2 ∧
    (pre_process cfgModel16 memModel16).2.newModel =
      BufData.u16 (model_16_core memModel16.input.as16 memModel16.model.as16
        memModel16.newModel.as16 cfgModel16.samples cfgModel16.model_value
        cfgModel16.round).2 ∧
    (pre_process cfgModelSFX memModelSFX).2.model = memModelSFX.model :=
  ⟨Or.inl rfl,
   (C9_model32_in_place cfgModel32 memModel32 (BufData.u32 [42]) 7 (Or.inl rfl)).1.2,
   ((C9_model32_in_place cfgModel32 memModel32 (BufData.u32 [42]) 7 (Or.inl rfl)).2.1
     (by decide) (by decide) (by decide) (by decide)).1,
   ((C9_model32_in_place cfgModel32 memModel32 (BufData.u32 [42]) 7 (Or.inl rfl)).2.2.1
     cfgModel16 memModel16 rfl (by decide) (by decide) (by decide) (by decide) (by decide)
     (by decide)).2,
   ((C9_model32_in_place cfgModel32 memModel32 (BufData.u32 [42]) 7 (Or.inl rfl)).2.2.2
     cfgModelSFX memModelSFX rfl (by decide) (by decide) (by decide) (by decide) (by decide)
     (by decide)).1⟩
